import Mathlib

/-!
Verification development for the Gaana metadata-source plugin
(`beetsplug/gaana.py`).  The Python source is shallowly embedded: pure
helpers become Lean functions on `List Char` / `String`, JSON payloads
become an inductive `Json` value, the HTTP layer becomes an oracle
`Net : String → Except Unit HttpResp` together with an explicit trace of
issued requests, and Python exceptions become `Except Unit` results.
Python `float` literal parsing and arithmetic are modelled with exact
rationals plus explicit `inf` / `nan` values; IEEE rounding of in-range
finite values is not modelled (no claim depends on it).  Unicode-aware
character classes (`\w`, `\s`, `\d`) are modelled by their ASCII
restrictions, which are exact on all inputs appearing in the claims.
-/

deriving instance DecidableEq for Except

namespace Gaana

/-! ## Character and string primitives -/

/-- Word character for the regex class `\w` (ASCII restriction of the
Unicode-aware class used by `re.UNICODE`). -/
def isWordChar (c : Char) : Bool :=
  c.isAlphanum || c == '_'

/-- Python `str.strip()` with no arguments: remove leading and trailing
whitespace. -/
def trimWs (l : List Char) : List Char :=
  ((l.dropWhile Char.isWhitespace).reverse.dropWhile Char.isWhitespace).reverse

/-- Digit-string value: all characters must be decimal digits and the list
must be non-empty (the digit part of Python `int()` / `float()` literals). -/
def parseDigits : List Char → Option Nat
  | [] => none
  | l => go l 0
where
  go : List Char → Nat → Option Nat
    | [], acc => some acc
    | c :: cs, acc => if c.isDigit then go cs (acc * 10 + (c.toNat - '0'.toNat)) else none

/-- Python `int(s)` on a string: optional surrounding whitespace, optional
sign, then decimal digits.  `none` models a `ValueError`. -/
def pyIntCore (l : List Char) : Option Int :=
  match trimWs l with
  | '+' :: rest => (parseDigits rest).map (fun n => (n : Int))
  | '-' :: rest => (parseDigits rest).map (fun n => -(n : Int))
  | rest => (parseDigits rest).map (fun n => (n : Int))

/-- A Python float value as produced by `float(s)`: a finite rational
(represented exactly as `num / den` with `den` a positive power of ten),
an infinity, or NaN. -/
inductive PyFloat where
  | finite (num : Int) (den : Nat)
  | inf
  | negInf
  | nan
deriving DecidableEq

/-- Mantissa of a float literal: `digits`, `digits.digits?`, `.digits` or
`digits.` (at least one digit overall).  Returns the exact value as a
numerator and a power-of-ten denominator. -/
def parseMantissa (l : List Char) : Option (Nat × Nat) :=
  let ip := l.takeWhile Char.isDigit
  match l.dropWhile Char.isDigit with
  | [] => if ip.isEmpty then none else (parseDigits ip).map (fun n => (n, 1))
  | '.' :: rest =>
    let fp := rest.takeWhile Char.isDigit
    if (rest.dropWhile Char.isDigit).isEmpty then
      if ip.isEmpty && fp.isEmpty then none
      else
        some ((parseDigits ip).getD 0 * 10 ^ fp.length + (parseDigits fp).getD 0,
          10 ^ fp.length)
    else none
  | _ => none

/-- Split a float-literal body at the first `e`/`E` (exponent marker). -/
def splitExp (l : List Char) : List Char × Option (List Char) :=
  let m := l.takeWhile (fun c => c ≠ 'e' && c ≠ 'E')
  match l.dropWhile (fun c => c ≠ 'e' && c ≠ 'E') with
  | [] => (m, none)
  | _ :: rest => (m, some rest)

/-- Exponent part: optional sign then digits. -/
def parseExp (l : List Char) : Option Int :=
  match l with
  | '+' :: rest => (parseDigits rest).map (fun n => (n : Int))
  | '-' :: rest => (parseDigits rest).map (fun n => -(n : Int))
  | rest => (parseDigits rest).map (fun n => (n : Int))

/-- Apply a decimal exponent to an exact scaled value. -/
def applyExp (n d : Nat) (e : Int) : Nat × Nat :=
  if 0 ≤ e then (n * 10 ^ e.toNat, d) else (n, d * 10 ^ (-e).toNat)

/-- Body of a float literal after the optional sign: `inf`, `infinity`,
`nan` (case-insensitive) or a decimal literal with optional exponent. -/
def pyFloatBody (neg : Bool) (body : List Char) : Option PyFloat :=
  let low := body.map Char.toLower
  if low = "inf".data ∨ low = "infinity".data then
    some (if neg then .negInf else .inf)
  else if low = "nan".data then some .nan
  else
    match splitExp body with
    | (m, none) =>
      (parseMantissa m).map (fun p =>
        .finite (if neg then -(p.1 : Int) else (p.1 : Int)) p.2)
    | (m, some ex) =>
      match parseMantissa m, parseExp ex with
      | some p, some e =>
        let q := applyExp p.1 p.2 e
        some (.finite (if neg then -(q.1 : Int) else (q.1 : Int)) q.2)
      | _, _ => none

/-- Python `float(s)`: surrounding whitespace, optional sign, then the
literal body.  `none` models a `ValueError`.  (Kept exact: parses that
overflow the IEEE range are modelled as finite; no claim depends on the
overflow threshold.) -/
def pyFloatCore (l : List Char) : Option PyFloat :=
  match trimWs l with
  | '+' :: rest => pyFloatBody false rest
  | '-' :: rest => pyFloatBody true rest
  | rest => pyFloatBody false rest

/-- Python `int(x)` truncation of an exact scaled value toward zero
(`Int.tdiv` is T-division, matching CPython). -/
def scaledTrunc (num : Int) (den : Nat) : Int :=
  Int.tdiv num (Int.ofNat den)

/-- Python `int(x)` on a float value: truncation toward zero; `ValueError`
on NaN (modelled as `.error false`), `OverflowError` on an infinity
(modelled as `.error true`). -/
def pyIntOfFloat : PyFloat → Except Bool Int
  | .finite num den => .ok (scaledTrunc num den)
  | .nan => .error false
  | .inf => .error true
  | .negInf => .error true

/-! ## The count parser (`parse_count`, gaana.py lines 301-323) -/

/-- `str_val[1:]` applied when `str_val.startswith('<')`. -/
def stripLt : List Char → List Char
  | '<' :: rest => rest
  | other => other

/-- The stripping phase of `parse_count`: `str(x).strip()`, then remove one
leading `<`, then one trailing `+`. -/
def strippedCount (s : String) : List Char :=
  if (stripLt (trimWs s.data)).getLast? = some '+' then
    (stripLt (trimWs s.data)).dropLast
  else stripLt (trimWs s.data)

/-- Multiplication of the parsed float by the `K`/`M` factor (an infinity
or NaN is preserved by the scaling). -/
def kmScale : PyFloat → Nat → PyFloat
  | .finite num den, factor => .finite (num * factor) den
  | .inf, _ => .inf
  | .negInf, _ => .negInf
  | .nan, _ => .nan

/-- The `K`/`M` branch of `parse_count`: `int(float(prefix) * factor)`,
with `except ValueError: return 0`.  An `OverflowError` from `int()` on an
infinite float is not caught and escapes (`.error ()`). -/
def kmBranch (cs : List Char) (factor : Nat) : Except Unit Int :=
  match pyFloatCore cs with
  | none => .ok 0
  | some f =>
    match pyIntOfFloat (kmScale f factor) with
    | .ok n => .ok n
    | .error false => .ok 0
    | .error true => .error ()

/-- The body of `parse_count` after the initial truthiness test: strip,
dispatch on a trailing `K`/`M`, otherwise `int()` with `ValueError`
absorbed to 0. -/
def parseCountBody (s : String) : Except Unit Int :=
  if (strippedCount s).getLast? = some 'K' then
    kmBranch (strippedCount s).dropLast 1000
  else if (strippedCount s).getLast? = some 'M' then
    kmBranch (strippedCount s).dropLast 1000000
  else
    match pyIntCore (strippedCount s) with
    | some n => .ok n
    | none => .ok 0

/-- `GaanaPlugin.parse_count` restricted to its string-or-`None` inputs.
`.error ()` models an uncaught exception escaping the function. -/
def parse_count (o : Option String) : Except Unit Int :=
  match o with
  | none => .ok 0
  | some s => if s = "" then .ok 0 else parseCountBody s

/-- Does `float()` yield an infinite value on this string? -/
def isInfFloat (l : List Char) : Bool :=
  match pyFloatCore l with
  | some .inf => true
  | some .negInf => true
  | _ => false

/-- Does `parse_count` reach an infinite float on the `K`/`M` path?  (The
one situation in which its numeric conversion raises instead of
returning 0.) -/
def infPathB (s : String) : Bool :=
  (!(s == "")) &&
    ((strippedCount s).getLast? == some 'K' ||
      (strippedCount s).getLast? == some 'M') &&
    isInfFloat (strippedCount s).dropLast

/-! ## JSON values and Python dictionary/sequence semantics -/

inductive Json where
  | null
  | bool (b : Bool)
  | int (n : Int)
  | str (s : String)
  | arr (elems : List Json)
  | obj (fields : List (String × Json))

/-- Python truthiness of a JSON-decoded value. -/
def truthy : Json → Bool
  | .null => false
  | .bool b => b
  | .int n => n != 0
  | .str s => s != ""
  | .arr es => !es.isEmpty
  | .obj fs => !fs.isEmpty

/-- First-match association-list lookup (Python dict lookup). -/
def lookupField : List (String × Json) → String → Option Json
  | [], _ => none
  | (k, v) :: rest, key => if k = key then some v else lookupField rest key

/-- `x[key]`: `KeyError` when the key is missing, `TypeError` when `x` is
not a dict. -/
def pySub (j : Json) (key : String) : Except Unit Json :=
  match j with
  | .obj fs =>
    match lookupField fs key with
    | some v => .ok v
    | none => .error ()
  | _ => .error ()

/-- `x.get(key)`: `None` when the key is missing; `AttributeError` when
`x` is not a dict. -/
def pyGet (j : Json) (key : String) : Except Unit Json :=
  match j with
  | .obj fs => .ok ((lookupField fs key).getD .null)
  | _ => .error ()

/-- Python `str()` of a JSON-decoded value, as used in f-string URL
interpolation and in `parse_count`.  The rendering of containers is a
placeholder; no claim depends on it. -/
def pyStrJ : Json → String
  | .str s => s
  | .int n => toString n
  | .bool true => "True"
  | .bool false => "False"
  | .null => "None"
  | .arr _ => "<list>"
  | .obj _ => "<dict>"

/-- Python iteration `for x in v`: lists yield elements, dicts their keys,
strings their characters; other values raise `TypeError`. -/
def pyIterate : Json → Except Unit (List Json)
  | .arr es => .ok es
  | .obj fs => .ok (fs.map (fun p => .str p.1))
  | .str s => .ok (s.data.map (fun c => .str (String.mk [c])))
  | _ => .error ()

/-- Python `v[0]` on a decoded response (detail endpoints return arrays
whose first element is the record). -/
def pyIndex0 : Json → Except Unit Json
  | .arr (x :: _) => .ok x
  | .str s =>
    match s.data with
    | c :: _ => .ok (.str (String.mk [c]))
    | [] => .error ()
  | _ => .error ()

/-- `parse_count` on an arbitrary JSON-decoded argument (the plugin passes
raw JSON fields to it): falsy values yield 0, other values are rendered
with `str()` and parsed like the string inputs of `parse_count`. -/
def parse_countJ (v : Json) : Except Unit Int :=
  if truthy v then parseCountBody (pyStrJ v) else .ok 0

/-! ## Query normalizer (the two `re.sub` calls of `get_albums` /
`get_tracks`, lines 69-72 and 103-106) -/

/-- Pass (a): `re.sub(r'(?u)\W+', ' ', s)` — every maximal run of
non-word characters becomes a single space.  The Boolean argument records
whether we are inside a non-word run whose replacement space has already
been emitted. -/
def stepA : Bool → List Char → List Char
  | _, [] => []
  | inRun, c :: cs =>
    if isWordChar c then c :: stepA false cs
    else if inRun then stepA true cs
    else ' ' :: stepA true cs

/-- Case-insensitive literal prefix match; returns the remainder on
success. -/
def stripCI : List Char → List Char → Option (List Char)
  | [], l => some l
  | _ :: _, [] => none
  | p :: ps, c :: cs => if c.toLower = p then stripCI ps cs else none

/-- `\s*\d+` after the keyword: greedy whitespace, then at least one
digit; returns the remainder after the digits. -/
def matchTail (l : List Char) : Option (List Char) :=
  let ws := l.dropWhile Char.isWhitespace
  if (ws.takeWhile Char.isDigit).isEmpty then none
  else some (ws.dropWhile Char.isDigit)

/-- Match `(?i)(CD|disc)\s*\d+` at the head of the list, with the regex
engine's ordered alternation (the word boundary `\b` is checked by the
caller). -/
def markerAt (l : List Char) : Option (List Char) :=
  (stripCI ['c', 'd'] l >>= matchTail) <|>
    (stripCI ['d', 'i', 's', 'c'] l >>= matchTail)

/-- Pass (b): `re.sub(r'(?i)\b(CD|disc)\s*\d+', '', s)`.  The first
argument counts characters of a match still to be consumed, the second
records whether the previous character was a word character (for `\b`;
matches can only start where the previous character is not a word
character, since the pattern begins with a word character). -/
def stepB : Nat → Bool → List Char → List Char
  | _, _, [] => []
  | k + 1, _, _ :: cs => stepB k true cs
  | 0, prevW, c :: cs =>
    if prevW then c :: stepB 0 (isWordChar c) cs
    else
      match markerAt (c :: cs) with
      | some rest => stepB (cs.length - rest.length) true cs
      | none => c :: stepB 0 (isWordChar c) cs

/-- The query normalizer applied by `get_albums` / `get_tracks`. -/
def normalizeQuery (s : String) : String :=
  String.mk (stepB 0 false (stepA false s.data))

/-! ## Remaining string helpers -/

/-- `s.replace("&quot;", "\"")`: left-to-right, non-overlapping.  The
first argument counts characters of a replaced occurrence still to be
consumed. -/
def replQAux : Nat → List Char → List Char
  | _, [] => []
  | k + 1, _ :: cs => replQAux k cs
  | 0, c :: cs =>
    if "&quot;".data.isPrefixOf (c :: cs) then '"' :: replQAux 5 cs
    else c :: replQAux 0 cs

/-- `s.replace("&quot;", "\"")` on strings. -/
def replaceQuot (s : String) : String := String.mk (replQAux 0 s.data)

/-- Python `s.strip()` on strings. -/
def trimS (s : String) : String := String.mk (trimWs s.data)

/-- Python `s.split("/")[-1]`: the substring after the last `/` (the whole
string if there is none). -/
def lastSlashSeg (s : String) : String :=
  String.mk ((s.data.reverse.takeWhile (fun c => c ≠ '/')).reverse)

/-- Python `sub in s` on strings: contiguous substring test. -/
def hasSubstr (pat : List Char) : List Char → Bool
  | [] => pat.isEmpty
  | c :: cs => pat.isPrefixOf (c :: cs) || hasSubstr pat cs

/-- Python `s.split("-")` (separator `-`, empty pieces kept). -/
def splitDash : List Char → List (List Char)
  | [] => [[]]
  | c :: cs =>
    match splitDash cs with
    | [] => [[c]]
    | p :: ps => if c = '-' then [] :: p :: ps else (c :: p) :: ps

/-! ## HTTP model -/

/-- A fetched HTTP response as visible to the plugin: the
`raise_for_status()` outcome, the `.json()` outcome, and whether the body
decodes as an image. -/
structure HttpResp where
  ok_status : Bool
  json : Except Unit Json
  isImage : Bool

/-- The network oracle: URL to response; `.error ()` is a transport-level
failure raised by `requests.get` itself. -/
def Net := String → Except Unit HttpResp

/-- The call sites of `requests.get` in the plugin. -/
inductive ReqSite where
  | albumSearch
  | albumDetail
  | songSearch
  | songDetail
  | imageProbe
  | playlistDetail
deriving DecidableEq

/-- One outbound HTTP request: URL, issuing call site, and the `timeout=`
argument passed to `requests.get` (`none` = no timeout argument). -/
structure HttpReq where
  url : String
  site : ReqSite
  timeout : Option Nat
deriving DecidableEq

/-- Search or lookup-request failure as caught by the plugin's `try`
blocks: transport error, bad HTTP status, or JSON decode failure. -/
def requestFailsB (net : Net) (u : String) : Bool :=
  match net u with
  | .error _ => true
  | .ok r =>
    if r.ok_status then
      match r.json with
      | .error _ => true
      | .ok _ => false
    else true

/-! ## Output records -/

/-- The beets `TrackInfo` fields populated by `_get_track` /
`get_album_info`; fields the plugin never assigns keep the beets default
`none`. -/
structure TrackInfo where
  title : String
  track_id : Json
  gaana_track_seokey : Json
  gaana_track_popularity : Option Int
  gaana_genres : Json
  artist : Json
  album : String
  gaana_artist_id : Json
  gaana_artist_seokey : Json
  length : Option Int
  gaana_track_fav_count : Int
  gaana_updated : Int
  medium : Option Int
  index : Option Int
  medium_total : Option Int

/-- The beets `AlbumInfo` fields populated by `get_album_info`. -/
structure AlbumInfo where
  album : String
  album_id : Json
  gaana_seokey : Json
  artist : Json
  artist_id : Json
  gaana_artist_seokey : Json
  tracks : List TrackInfo
  year : Option Int
  month : Option Int
  day : Option Int
  mediums : Option Int
  cover_art_url : Option Json
  label : Option Json
  gaana_play_count : Int
  gaana_fav_count : Int

/-- A playlist entry produced by `import_gaana_playlist`. -/
structure Song where
  title : String
  artist : String
  album : String

/-! ## Image URL validation -/

/-- `is_valid_image_url` (lines 292-299): note that its `requests.get(url)`
call passes no `timeout=` argument.  A non-string argument makes
`requests.get` raise before any request is issued; the surrounding
`except` turns every failure into `False`. -/
def is_valid_image_urlT (net : Net) (url : Json) : List HttpReq × Bool :=
  match url with
  | .str u =>
    ([{ url := u, site := .imageProbe, timeout := none }],
      match net u with
      | .error _ => false
      | .ok r => if r.ok_status then r.isImage else false)
  | _ => ([], false)

/-! ## Track mapper -/

/-- The `duration` block of `_get_track` (lines 223-226): a truthy
duration must be a string parsed by `int()`; a `ValueError` or an
`AttributeError` (`.strip()` on a non-string) is uncaught. -/
def trackLength (dur : Json) : Except Unit (Option Int) :=
  if truthy dur then
    match dur with
    | .str s =>
      match pyIntCore s.data with
      | some n => .ok (some n)
      | none => .error ()
    | _ => .error ()
  else .ok none

/-- The `popularity`/`play_count` block of `_get_track` (lines 228-233):
a truthy popularity string contributes the integer before its first `~`;
otherwise a truthy `play_count` goes through the count parser; otherwise
`None`. -/
def trackPlayCount (d : Json) (pop : Json) : Except Unit (Option Int) :=
  if truthy pop then
    match pop with
    | .str s =>
      match pyIntCore (s.data.takeWhile (fun c => c ≠ '~')) with
      | some n => .ok (some n)
      | none => .error ()
    | _ => .error ()
  else
    match pySub d "play_count" with
    | .error e => .error e
    | .ok pc =>
      if truthy pc then
        match parse_countJ pc with
        | .error e => .error e
        | .ok n => .ok (some n)
      else .ok none

/-- The `favorite_count` block of `_get_track` (lines 234-238):
`isinstance(x, int)` keeps the value (Python `bool` is an `int`), anything
else goes through the count parser. -/
def trackFav (fav : Json) : Except Unit Int :=
  match fav with
  | .int n => .ok n
  | .bool b => .ok (if b then 1 else 0)
  | _ => parse_countJ fav

/-- `_get_track` (lines 220-255): convert a Gaana song object to a
`TrackInfo`.  `now` stands for `time.time()`.  The `medium` field is never
assigned and keeps its beets default `None`; `index` and `medium_total`
are assigned later by `get_album_info`. -/
def _get_trackT (now : Int) (d : Json) : Except Unit TrackInfo :=
  match pySub d "duration" with
  | .error e => .error e
  | .ok dur =>
  match trackLength dur with
  | .error e => .error e
  | .ok length =>
  match pySub d "artists" with
  | .error e => .error e
  | .ok artist =>
  match pySub d "popularity" with
  | .error e => .error e
  | .ok pop =>
  match trackPlayCount d pop with
  | .error e => .error e
  | .ok play_count =>
  match pySub d "favorite_count" with
  | .error e => .error e
  | .ok fav =>
  match trackFav fav with
  | .error e => .error e
  | .ok favN =>
  match pyGet d "title" with
  | .error e => .error e
  | .ok (.str ts) =>
    match pySub d "track_id" with
    | .error e => .error e
    | .ok track_id =>
    match pySub d "seokey" with
    | .error e => .error e
    | .ok seokey =>
    match pySub d "genres" with
    | .error e => .error e
    | .ok genres =>
    match pySub d "album" with
    | .error e => .error e
    | .ok (.str als) =>
      match pySub d "artist_ids" with
      | .error e => .error e
      | .ok artist_ids =>
      match pySub d "artist_seokeys" with
      | .error e => .error e
      | .ok artist_seokeys =>
        .ok {
          title := replaceQuot ts
          track_id := track_id
          gaana_track_seokey := seokey
          gaana_track_popularity := play_count
          gaana_genres := genres
          artist := artist
          album := replaceQuot als
          gaana_artist_id := artist_ids
          gaana_artist_seokey := artist_seokeys
          length := length
          gaana_track_fav_count := favN
          gaana_updated := now
          medium := none
          index := none
          medium_total := none }
    | .ok _ => .error ()            -- .replace on a non-string album
  | .ok _ => .error ()              -- .replace on None / non-string title

/-! ## Album mapper -/

/-- The `release_date` field handling of `get_album_info`
(lines 167-172): a truthy date must be a string; exactly three
`-`-separated parts are parsed with `int()` (a failing part raises an
uncaught `ValueError`); a non-string truthy value raises at `.split`; any
other shape leaves all three fields `None`. -/
def dateFromField (v : Json) : Except Unit (Option Int × Option Int × Option Int) :=
  if truthy v then
    match v with
    | .str s =>
      match splitDash s.data with
      | [p0, p1, p2] =>
        match pyIntCore p0, pyIntCore p1, pyIntCore p2 with
        | some y, some m, some d => .ok (some y, some m, some d)
        | _, _, _ => .error ()
      | _ => .ok (none, none, none)
    | _ => .error ()
  else .ok (none, none, none)

/-- The full `release_date` block (lines 165-172), including the
`item.get(...)` access. -/
def dateTriple (item : Json) : Except Unit (Option Int × Option Int × Option Int) :=
  match pyGet item "release_date" with
  | .error e => .error e
  | .ok v => dateFromField v

/-- `collections.defaultdict(int)` increment, preserving insertion
order. -/
def bumpTotal : List (Option Int × Nat) → Option Int → List (Option Int × Nat)
  | [], k => [(k, 1)]
  | (k', n) :: rest, k =>
    if k' = k then (k', n + 1) :: rest else (k', n) :: bumpTotal rest k

/-- Read `medium_totals[track.medium]` during back-fill (the key is always
present when read, so the default is never observed). -/
def lookupTotal : List (Option Int × Nat) → Option Int → Int
  | [], _ => 0
  | (k', n) :: rest, k => if k' = k then (n : Int) else lookupTotal rest k

/-- Keys that are all integers, in order (`None` anywhere gives `none`). -/
def allInts : List (Option Int) → Option (List Int)
  | [] => some []
  | none :: _ => none
  | some n :: rest => (allInts rest).map (fun l => n :: l)

/-- Python `max()` over the tally's keys: a singleton is returned without
comparison; comparing two or more keys raises `TypeError` if any is
`None`. -/
def pyMaxKeys : List (Option Int) → Except Unit (Option Int)
  | [] => .error ()                 -- max() of an empty sequence
  | [k] => .ok k
  | ks =>
    match allInts ks with
    | some (n :: ns) => .ok (some (ns.foldl max n))
    | _ => .error ()

/-- The track loop of `get_album_info` (lines 188-193): map each song,
assign the 1-based index, and tally per-medium counts. -/
def albumTracksLoop (now : Int) : List Json → Nat → List (Option Int × Nat) →
    List TrackInfo → Except Unit (List TrackInfo × List (Option Int × Nat))
  | [], _, totals, acc => .ok (acc, totals)
  | s :: rest, i, totals, acc =>
    match _get_trackT now s with
    | .error e => .error e
    | .ok t0 =>
      albumTracksLoop now rest (i + 1)
        (bumpTotal totals ({ t0 with index := some (i : Int) } : TrackInfo).medium)
        (acc ++ [{ t0 with index := some (i : Int) }])

/-- The fields of `get_album_info` computed before the cover-art probe
(lines 162-173): unescaped title, album id, seokey, the release-date
triple, and the nested `images.urls.large_artwork` value. -/
def albumHead (item : Json) :
    Except Unit (String × Json × Json × (Option Int × Option Int × Option Int) × Json) :=
  match pyGet item "title" with
  | .error e => .error e
  | .ok (.str ts) =>
    match pySub item "album_id" with
    | .error e => .error e
    | .ok album_id =>
    match pySub item "seokey" with
    | .error e => .error e
    | .ok seokey =>
    match dateTriple item with
    | .error e => .error e
    | .ok date =>
    match pySub item "images" with
    | .error e => .error e
    | .ok imgs =>
    match pySub imgs "urls" with
    | .error e => .error e
    | .ok urls =>
    match pySub urls "large_artwork" with
    | .error e => .error e
    | .ok url => .ok (replaceQuot ts, album_id, seokey, date, url)
  | .ok _ => .error ()              -- .replace on None / non-string title

/-- The `label` block of `get_album_info` (lines 166, 178-179). -/
def albumLabel (item : Json) : Except Unit (Option Json) :=
  match pyGet item "label" with
  | .error e => .error e
  | .ok labelv =>
    if truthy labelv then
      match pySub item "label" with
      | .error e => .error e
      | .ok lv => .ok (some lv)
    else .ok none

/-- The fields of `get_album_info` read after the cover-art probe
(lines 178-199), together with the mapped track list and the medium
count. -/
def albumTail (now : Int) (item : Json) :
    Except Unit (Option Json × Json × Json × Json × List TrackInfo × Option Int × Int × Int) :=
  match albumLabel item with
  | .error e => .error e
  | .ok label =>
  match pySub item "artists" with
  | .error e => .error e
  | .ok artists =>
  match pySub item "artist_seokeys" with
  | .error e => .error e
  | .ok artist_seokeys =>
  match pySub item "artist_ids" with
  | .error e => .error e
  | .ok artist_ids =>
  match pySub item "tracks" with
  | .error e => .error e
  | .ok songsJ =>
  match pySub item "play_count" with
  | .error e => .error e
  | .ok pc =>
  match parse_countJ pc with
  | .error e => .error e
  | .ok gaana_play_count =>
  match pySub item "favorite_count" with
  | .error e => .error e
  | .ok fc =>
  match parse_countJ fc with
  | .error e => .error e
  | .ok gaana_fav_count =>
  match pyIterate songsJ with
  | .error e => .error e
  | .ok songs =>
  match albumTracksLoop now songs 1 [] [] with
  | .error e => .error e
  | .ok pair =>
    match (if songs.isEmpty then .ok (some 0)
           else pyMaxKeys (pair.2.map Prod.fst) : Except Unit (Option Int)) with
    | .error e => .error e
    | .ok mediums =>
      .ok (label, artists, artist_seokeys, artist_ids,
        pair.1.map (fun t =>
          { t with medium_total := some (lookupTotal pair.2 t.medium) }),
        mediums, gaana_play_count, gaana_fav_count)

/-- `get_album_info` (lines 159-218).  The only HTTP request it issues
itself is the cover-art probe inside `is_valid_image_url`. -/
def get_album_infoT (net : Net) (now : Int) (item : Json) :
    List HttpReq × Except Unit AlbumInfo :=
  match albumHead item with
  | .error e => ([], .error e)
  | .ok (album, album_id, seokey, (y, m, d), url) =>
    ((is_valid_image_urlT net url).1,
      match albumTail now item with
      | .error e => .error e
      | .ok (label, artists, artist_seokeys, artist_ids, tracks, mediums,
          gaana_play_count, gaana_fav_count) =>
        .ok {
          album := album
          album_id := album_id
          gaana_seokey := seokey
          artist := artists
          artist_id := artist_ids
          gaana_artist_seokey := artist_seokeys
          tracks := tracks
          year := y
          month := m
          day := d
          mediums := mediums
          cover_art_url := if (is_valid_image_urlT net url).2 then some url else none
          label := label
          gaana_play_count := gaana_play_count
          gaana_fav_count := gaana_fav_count })

/-! ## Search-and-detail operations -/

def SONG_SEARCH : String := "/songs/search?query="
def ALBUM_SEARCH : String := "/albums/search?limit=5&query="
def SONG_DETAILS : String := "/songs/info?seokey="
def ALBUM_DETAILS : String := "/albums/info?seokey="
def PLAYLIST_DETAILS : String := "/playlists/info?seokey="

/-- The album search URL built in `get_albums` (line 75): the normalized
query wrapped in literal quote characters. -/
def albumSearchUrl (base query : String) : String :=
  base ++ ALBUM_SEARCH ++ "\"" ++ normalizeQuery query ++ "\""

/-- The song search URL built in `get_tracks` (line 109). -/
def songSearchUrl (base query : String) : String :=
  base ++ SONG_SEARCH ++ "\"" ++ normalizeQuery query ++ "\""

/-- The search request of `get_albums` (line 77). -/
def albumSearchReq (base q : String) : HttpReq :=
  { url := albumSearchUrl base q, site := .albumSearch, timeout := some 30 }

/-- The search request of `get_tracks` (line 111). -/
def songSearchReq (base q : String) : HttpReq :=
  { url := songSearchUrl base q, site := .songSearch, timeout := some 30 }

/-- The per-result detail request of `get_albums` (line 87). -/
def albumDetailReq (base : String) (sk : Json) : HttpReq :=
  { url := base ++ ALBUM_DETAILS ++ pyStrJ sk, site := .albumDetail,
    timeout := some 30 }

/-- The per-result detail request of `get_tracks` (line 121). -/
def songDetailReq (base : String) (sk : Json) : HttpReq :=
  { url := base ++ SONG_DETAILS ++ pyStrJ sk, site := .songDetail,
    timeout := some 30 }

/-- The lookup request of `album_for_id` (line 266). -/
def albumIdReq (base ident : String) : HttpReq :=
  { url := base ++ ALBUM_DETAILS ++ lastSlashSeg ident, site := .albumDetail,
    timeout := some 30 }

/-- The lookup request of `track_for_id` (line 282). -/
def songIdReq (base ident : String) : HttpReq :=
  { url := base ++ SONG_DETAILS ++ lastSlashSeg ident, site := .songDetail,
    timeout := some 30 }

/-- The playlist request of `import_gaana_playlist` (line 335). -/
def playlistReq (base url : String) : HttpReq :=
  { url := base ++ PLAYLIST_DETAILS ++ lastSlashSeg url, site := .playlistDetail,
    timeout := some 30 }

/-- The per-result loop of `get_albums` (lines 84-93).  The detail fetch
(line 87, `requests.get(...).json()`, no `raise_for_status`, no `try`)
and the album mapping are unguarded: their failures escape `get_albums`.
The debug log on line 90-93 evaluates `album["title"]`, so a summary
without `"title"` also raises. -/
def albumsLoop (net : Net) (base : String) (now : Int) :
    List Json → List HttpReq × Except Unit (List AlbumInfo)
  | [] => ([], .ok [])
  | a :: rest =>
    match pySub a "seokey" with
    | .error e => ([], .error e)
    | .ok sk =>
      match net (base ++ ALBUM_DETAILS ++ pyStrJ sk) with
      | .error e => ([albumDetailReq base sk], .error e)
      | .ok resp =>
        match resp.json with
        | .error e => ([albumDetailReq base sk], .error e)
        | .ok dj =>
          match pyIndex0 dj with
          | .error e => ([albumDetailReq base sk], .error e)
          | .ok a0 =>
            match get_album_infoT net now a0 with
            | (tr, .error e) => (albumDetailReq base sk :: tr, .error e)
            | (tr, .ok info) =>
              match pySub a "title" with
              | .error e => (albumDetailReq base sk :: tr, .error e)
              | .ok _ =>
                match albumsLoop net base now rest with
                | (tr2, .error e) =>
                  (albumDetailReq base sk :: (tr ++ tr2), .error e)
                | (tr2, .ok infos) =>
                  (albumDetailReq base sk :: (tr ++ tr2), .ok (info :: infos))

/-- `get_albums` (lines 62-94): normalize the query, search, and map each
result through a detail fetch.  Failures of the search request itself
(transport, HTTP status, JSON decode) are caught and yield `[]`. -/
def get_albumsT (net : Net) (base : String) (now : Int) (query : String) :
    List HttpReq × Except Unit (List AlbumInfo) :=
  match net (albumSearchUrl base query) with
  | .error _ => ([albumSearchReq base query], .ok [])
  | .ok r =>
    if r.ok_status then
      match r.json with
      | .error _ => ([albumSearchReq base query], .ok [])
      | .ok data =>
        match pyIterate data with
        | .error e => ([albumSearchReq base query], .error e)
        | .ok items =>
          match albumsLoop net base now items with
          | (tr, res) => (albumSearchReq base query :: tr, res)
    else ([albumSearchReq base query], .ok [])

/-- The per-result loop of `get_tracks` (lines 118-128); like the album
loop, the detail fetch, the track mapping and the `track["title"]` debug
access are unguarded. -/
def songsLoop (net : Net) (base : String) (now : Int) :
    List Json → List HttpReq × Except Unit (List TrackInfo)
  | [] => ([], .ok [])
  | a :: rest =>
    match pySub a "seokey" with
    | .error e => ([], .error e)
    | .ok sk =>
      match net (base ++ SONG_DETAILS ++ pyStrJ sk) with
      | .error e => ([songDetailReq base sk], .error e)
      | .ok resp =>
        match resp.json with
        | .error e => ([songDetailReq base sk], .error e)
        | .ok dj =>
          match pyIndex0 dj with
          | .error e => ([songDetailReq base sk], .error e)
          | .ok s0 =>
            match _get_trackT now s0 with
            | .error e => ([songDetailReq base sk], .error e)
            | .ok info =>
              match pySub a "title" with
              | .error e => ([songDetailReq base sk], .error e)
              | .ok _ =>
                match songsLoop net base now rest with
                | (tr2, .error e) => (songDetailReq base sk :: tr2, .error e)
                | (tr2, .ok infos) =>
                  (songDetailReq base sk :: tr2, .ok (info :: infos))

/-- `get_tracks` (lines 96-129). -/
def get_tracksT (net : Net) (base : String) (now : Int) (query : String) :
    List HttpReq × Except Unit (List TrackInfo) :=
  match net (songSearchUrl base query) with
  | .error _ => ([songSearchReq base query], .ok [])
  | .ok r =>
    if r.ok_status then
      match r.json with
      | .error _ => ([songSearchReq base query], .ok [])
      | .ok data =>
        match pyIterate data with
        | .error e => ([songSearchReq base query], .error e)
        | .ok items =>
          match songsLoop net base now items with
          | (tr, res) => (songSearchReq base query :: tr, res)
    else ([songSearchReq base query], .ok [])

/-- The query built by `candidates` (lines 135-138). -/
def candQuery (va_likely : Bool) (albumq artist : String) : String :=
  if va_likely then albumq else albumq ++ " " ++ artist

/-- `candidates` (lines 131-143): the host-facing album entry point; the
whole `get_albums` call is wrapped in `try/except Exception`, converting
every escaped failure into `[]`. -/
def candidatesT (net : Net) (base : String) (now : Int)
    (artist albumq : String) (va_likely : Bool) : List HttpReq × List AlbumInfo :=
  match get_albumsT net base now (candQuery va_likely albumq artist) with
  | (tr, .ok l) => (tr, l)
  | (tr, .error _) => (tr, [])

/-- `item_candidates` (lines 145-157): the host-facing track entry point;
the query construction cannot fail and the `get_tracks` call is wrapped in
`try/except Exception`. -/
def item_candidatesT (net : Net) (base : String) (now : Int)
    (artist title : String) : List HttpReq × List TrackInfo :=
  match get_tracksT net base now (title ++ " " ++ artist) with
  | (tr, .ok l) => (tr, l)
  | (tr, .error _) => (tr, [])

/-! ## Identifier resolvers -/

/-- `album_for_id` (lines 257-272): marker check, then a guarded lookup
request; the `album_details[0]` indexing and the album mapping on line 272
are outside the `try` block and their failures escape. -/
def album_for_idT (net : Net) (base : String) (now : Int) (album_id : String) :
    List HttpReq × Except Unit (Option AlbumInfo) :=
  if hasSubstr "gaana.com/album/".data album_id.data then
    match net (base ++ ALBUM_DETAILS ++ lastSlashSeg album_id) with
    | .error _ => ([albumIdReq base album_id], .ok none)
    | .ok r =>
      if r.ok_status then
        match r.json with
        | .error _ => ([albumIdReq base album_id], .ok none)
        | .ok dj =>
          match pyIndex0 dj with
          | .error e => ([albumIdReq base album_id], .error e)
          | .ok a0 =>
            match get_album_infoT net now a0 with
            | (tr, .error e) => (albumIdReq base album_id :: tr, .error e)
            | (tr, .ok info) => (albumIdReq base album_id :: tr, .ok (some info))
      else ([albumIdReq base album_id], .ok none)
  else ([], .ok none)

/-- `track_for_id` (lines 274-290): marker check, then a guarded lookup
request; `song_details[0]` and the track mapping on line 288 are outside
the `try` block. -/
def track_for_idT (net : Net) (base : String) (now : Int) (track_id : String) :
    List HttpReq × Except Unit (Option TrackInfo) :=
  if hasSubstr "gaana.com/song/".data track_id.data then
    match net (base ++ SONG_DETAILS ++ lastSlashSeg track_id) with
    | .error _ => ([songIdReq base track_id], .ok none)
    | .ok r =>
      if r.ok_status then
        match r.json with
        | .error _ => ([songIdReq base track_id], .ok none)
        | .ok dj =>
          match pyIndex0 dj with
          | .error e => ([songIdReq base track_id], .error e)
          | .ok s0 =>
            match _get_trackT now s0 with
            | .error e => ([songIdReq base track_id], .error e)
            | .ok t => ([songIdReq base track_id], .ok (some t))
      else ([songIdReq base track_id], .ok none)
  else ([], .ok none)

/-! ## Playlist importer -/

/-- One iteration of the playlist loop (lines 341-351): the title and
album fields are entity-unescaped and stripped, the artist field is only
stripped (it is copied verbatim before the `.strip()` call). -/
def songTriple (song : Json) : Except Unit Song :=
  match pySub song "title" with
  | .error e => .error e
  | .ok (.str ts) =>
    match pySub song "artists" with
    | .error e => .error e
    | .ok (.str as) =>
      match pySub song "album" with
      | .error e => .error e
      | .ok (.str bs) =>
        .ok { title := trimS (replaceQuot ts), artist := trimS as,
              album := trimS (replaceQuot bs) }
      | .ok _ => .error ()          -- .replace / .strip on a non-string
    | .ok _ => .error ()            -- .strip() on a non-string artist
  | .ok _ => .error ()              -- .replace on a non-string title

/-- The playlist loop over all songs. -/
def songsFold : List Json → Except Unit (List Song)
  | [] => .ok []
  | s :: rest =>
    match songTriple s with
    | .error e => .error e
    | .ok d =>
      match songsFold rest with
      | .error e => .error e
      | .ok ds => .ok (d :: ds)

/-- `import_gaana_playlist` (lines 325-352): marker check, guarded fetch,
then an unguarded loop building the simplified song dictionaries. -/
def import_gaana_playlistT (net : Net) (base : String) (url : String) :
    List HttpReq × Except Unit (List Song) :=
  if hasSubstr "/playlist/".data url.data then
    match net (base ++ PLAYLIST_DETAILS ++ lastSlashSeg url) with
    | .error _ => ([playlistReq base url], .ok [])
    | .ok r =>
      if r.ok_status then
        match r.json with
        | .error _ => ([playlistReq base url], .ok [])
        | .ok songsJ =>
          match pyIterate songsJ with
          | .error e => ([playlistReq base url], .error e)
          | .ok songs => ([playlistReq base url], songsFold songs)
      else ([playlistReq base url], .ok [])
  else ([], .ok [])

/-! ## Concrete fixtures used by witnesses and counterexamples -/

/-- A network oracle on which every request fails at transport level. -/
def netFail : Net := fun _ => .error ()

/-- A well-formed Gaana song object (carrying a `medium` field, which the
track mapper never reads). -/
def songJ (title : String) (tid : Int) : Json :=
  .obj [("duration", .str "100"), ("artists", .str "A1"),
        ("popularity", .str ""), ("play_count", .str ""),
        ("favorite_count", .int 3), ("title", .str title),
        ("track_id", .int tid), ("seokey", .str "sk"),
        ("genres", .arr []), ("album", .str "Alb"),
        ("artist_ids", .int 7), ("artist_seokeys", .str "ask"),
        ("medium", .int 1)]

/-- The track record produced from `songJ` inside an album mapping. -/
def trackExp (title : String) (tid : Int) (idx : Int) (total : Int) : TrackInfo := {
  title := title
  track_id := .int tid
  gaana_track_seokey := .str "sk"
  gaana_track_popularity := none
  gaana_genres := .arr []
  artist := .str "A1"
  album := "Alb"
  gaana_artist_id := .int 7
  gaana_artist_seokey := .str "ask"
  length := some 100
  gaana_track_fav_count := 3
  gaana_updated := 0
  medium := none
  index := some idx
  medium_total := some total }

/-- A well-formed Gaana album detail object with the given release date
and track list. -/
def albumItem (date : Json) (songs : List Json) : Json :=
  .obj [("title", .str "Alb"), ("album_id", .int 11),
        ("seokey", .str "alb-sk"), ("release_date", date),
        ("images", .obj [("urls", .obj [("large_artwork", .str "http://img")])]),
        ("label", .str "L"), ("artists", .str "A1"),
        ("artist_seokeys", .str "ask"), ("artist_ids", .int 7),
        ("tracks", .arr songs), ("play_count", .str "320"),
        ("favorite_count", .str "55K")]

/-- The album record produced from `albumItem (.str "2001-09-11") []`
under `netFail`. -/
def albumInfoEmpty : AlbumInfo := {
  album := "Alb"
  album_id := .int 11
  gaana_seokey := .str "alb-sk"
  artist := .str "A1"
  artist_id := .int 7
  gaana_artist_seokey := .str "ask"
  tracks := []
  year := some 2001
  month := some 9
  day := some 11
  mediums := some 0
  cover_art_url := none
  label := some (.str "L")
  gaana_play_count := 320
  gaana_fav_count := 55000 }

/-- A network oracle for the `candidates` witness: the album search for
`"albumX"` (base URL `"b"`) succeeds with one summary, every other
request — in particular the per-result detail fetch — fails. -/
def netW : Net := fun u =>
  if u = albumSearchUrl "b" "albumX" then
    .ok { ok_status := true
          json := .ok (.arr [.obj [("seokey", .str "s1"), ("title", .str "T")]])
          isImage := false }
  else .error ()

/-- A network oracle serving one playlist whose song has an HTML entity
in its artist field. -/
def netPl : Net := fun u =>
  if u = PLAYLIST_DETAILS ++ "p1" then
    .ok { ok_status := true
          json := .ok (.arr [.obj [("title", .str " T "),
            ("artists", .str " x &quot;y "), ("album", .str " B ")]])
          isImage := false }
  else .error ()

/-- The album record produced from
`albumItem (.str "2001-09-11") [songJ "T1" 1, songJ "T2" 2]` under
`netFail`: every track's `medium-total` is 2, but `mediums` is `none`
(Python `None`), because the unassigned medium is the only tally key. -/
def albumInfoTwo : AlbumInfo := {
  album := "Alb"
  album_id := .int 11
  gaana_seokey := .str "alb-sk"
  artist := .str "A1"
  artist_id := .int 7
  gaana_artist_seokey := .str "ask"
  tracks := [trackExp "T1" 1 1 2, trackExp "T2" 2 2 2]
  year := some 2001
  month := some 9
  day := some 11
  mediums := none
  cover_art_url := none
  label := some (.str "L")
  gaana_play_count := 320
  gaana_fav_count := 55000 }

/-! ## Derived predicates used in claim statements -/

/-- The date value is truthy and a string with exactly three
`-`-separated parts, each accepted by `int()`. -/
def goodDateFieldB (v : Json) : Bool :=
  match v with
  | .str s =>
    truthy (.str s) &&
      (match splitDash s.data with
       | [p0, p1, p2] =>
         (pyIntCore p0).isSome && (pyIntCore p1).isSome && (pyIntCore p2).isSome
       | _ => false)
  | _ => false

/-- The date value is truthy but raises during parsing: not a string, or
a three-part string with a part `int()` rejects. -/
def badDateFieldB (v : Json) : Bool :=
  truthy v &&
    (match v with
     | .str s =>
       (match splitDash s.data with
        | [p0, p1, p2] =>
          !((pyIntCore p0).isSome && (pyIntCore p1).isSome &&
            (pyIntCore p2).isSome)
        | _ => false)
     | _ => true)

/-- The release date is present, truthy, and a string with exactly three
`-`-separated parts, each accepted by `int()`. -/
def goodDateB (item : Json) : Bool :=
  match pyGet item "release_date" with
  | .ok v => goodDateFieldB v
  | .error _ => false

/-- The release date is present and truthy but raises during parsing. -/
def badDateB (item : Json) : Bool :=
  match pyGet item "release_date" with
  | .ok v => badDateFieldB v
  | .error _ => false

/-- Timeout policy of a request trace: every request carries
`timeout=30`, except the cover-art probe, which is issued with no
timeout at all. -/
def tracePolicy (l : List HttpReq) : Prop :=
  ∀ r ∈ l, r.timeout = if r.site = ReqSite.imageProbe then none else some 30

/-- Accessor: the `mediums` field of a successful album mapping result. -/
def albumResultMediums (r : List HttpReq × Except Unit AlbumInfo) :
    Option (Option Int) :=
  match r.2 with
  | .ok info => some info.mediums
  | .error _ => none

/-! ## Helper lemmas -/

/-- The `K`/`M` branch raises exactly when the float prefix parses to an
infinity. -/
theorem kmBranch_error_iff (cs : List Char) (factor : Nat) :
    kmBranch cs factor = .error () ↔ isInfFloat cs = true := by
  unfold kmBranch isInfFloat pyIntOfFloat
  rcases hf : pyFloatCore cs with _ | f
  · simp
  · cases f <;> simp [kmScale]

/-- Characters of the trimmed string come from the original. -/
theorem mem_of_mem_trimWs {c : Char} {l : List Char} (h : c ∈ trimWs l) :
    c ∈ l := by
  unfold trimWs at h
  rw [List.mem_reverse] at h
  have h2 : c ∈ (l.dropWhile Char.isWhitespace).reverse :=
    (List.dropWhile_sublist _).subset h
  rw [List.mem_reverse] at h2
  exact (List.dropWhile_sublist _).subset h2

/-- Characters survive the removal of a leading `<`. -/
theorem mem_of_mem_stripLt {c : Char} {l : List Char} (h : c ∈ stripLt l) :
    c ∈ l := by
  unfold stripLt at h
  split at h
  · exact List.mem_cons_of_mem _ h
  · exact h

/-- Characters of the stripped count string come from the original. -/
theorem mem_of_mem_strippedCount {c : Char} {s : String}
    (h : c ∈ strippedCount s) : c ∈ s.data := by
  apply mem_of_mem_trimWs
  unfold strippedCount at h
  split at h
  · exact mem_of_mem_stripLt ((List.dropLast_sublist _).subset h)
  · exact mem_of_mem_stripLt h

/-- `int()` of a string without a `-` character is non-negative. -/
theorem pyIntCore_nonneg {l : List Char} {n : Int}
    (hm : '-' ∉ l) (h : pyIntCore l = some n) : 0 ≤ n := by
  unfold pyIntCore at h
  split at h
  · rcases hp : parseDigits _ with _ | m <;> rw [hp] at h <;> simp at h
    omega
  · rename_i rest heq
    have hmem : '-' ∈ trimWs l := by rw [heq]; exact List.mem_cons_self _ _
    exact absurd (mem_of_mem_trimWs hmem) hm
  · rcases hp : parseDigits _ with _ | m <;> rw [hp] at h <;> simp at h
    omega

/-- A finite float parsed from a body with a non-negative sign has a
non-negative numerator. -/
theorem pyFloatBody_false_nonneg {body : List Char} {num : Int} {den : Nat}
    (h : pyFloatBody false body = some (.finite num den)) : 0 ≤ num := by
  unfold pyFloatBody at h
  simp only [Bool.false_eq_true, if_false] at h
  split at h
  · simp at h
  · split at h
    · simp at h
    · split at h
      · rcases hp : parseMantissa _ with _ | p <;> rw [hp] at h <;> simp at h
        omega
      · split at h
        · simp at h
          omega
        · simp at h

/-- A finite float parsed from a string without a `-` character has a
non-negative numerator. -/
theorem pyFloatCore_nonneg {l : List Char} {num : Int} {den : Nat}
    (hm : '-' ∉ l) (h : pyFloatCore l = some (.finite num den)) : 0 ≤ num := by
  unfold pyFloatCore at h
  split at h
  · exact pyFloatBody_false_nonneg h
  · rename_i rest heq
    have hmem : '-' ∈ trimWs l := by rw [heq]; exact List.mem_cons_self _ _
    exact absurd (mem_of_mem_trimWs hmem) hm
  · exact pyFloatBody_false_nonneg h

/-- Truncation toward zero preserves non-negativity. -/
theorem scaledTrunc_nonneg {num : Int} {den : Nat} (h : 0 ≤ num) :
    0 ≤ scaledTrunc num den :=
  Int.tdiv_nonneg h (Int.ofNat_nonneg den)

/-- The `K`/`M` branch is non-negative on inputs without a `-`. -/
theorem kmBranch_nonneg {cs : List Char} {factor : Nat} {n : Int}
    (hm : '-' ∉ cs) (h : kmBranch cs factor = .ok n) : 0 ≤ n := by
  unfold kmBranch at h
  split at h
  · simp at h
    omega
  · rename_i f hf
    split at h
    · rename_i n0 heq2
      cases f with
      | finite num den =>
        have hnum := pyFloatCore_nonneg hm hf
        unfold kmScale pyIntOfFloat at heq2
        simp at heq2 h
        subst h
        rw [← heq2]
        exact scaledTrunc_nonneg (mul_nonneg hnum (Int.ofNat_nonneg factor))
      | inf => unfold kmScale pyIntOfFloat at heq2; simp at heq2
      | negInf => unfold kmScale pyIntOfFloat at heq2; simp at heq2
      | nan => unfold kmScale pyIntOfFloat at heq2; simp at heq2
    · simp at h
      omega
    · simp at h

/-- Claim C2 (amended): `parse_count` never returns a negative integer on
a null input or on an input string containing no `-` character; inputs
with a `-` (e.g. `"-5"`) can produce negative values. -/
theorem C2_parse_count_nonneg_amended (s : String) (n : Int)
    (hm : '-' ∉ s.data) (h : parse_count (some s) = .ok n) : 0 ≤ n := by
  have hsub : '-' ∉ strippedCount s := fun hc => hm (mem_of_mem_strippedCount hc)
  rw [show parse_count (some s) = if s = "" then .ok 0 else parseCountBody s
    from rfl] at h
  split at h
  · simp at h
    omega
  · unfold parseCountBody at h
    split at h
    · exact kmBranch_nonneg
        (fun hc => hsub ((List.dropLast_sublist _).subset hc)) h
    · split at h
      · exact kmBranch_nonneg
          (fun hc => hsub ((List.dropLast_sublist _).subset hc)) h
      · split at h
        · rename_i m hp
          simp at h
          subst h
          exact pyIntCore_nonneg hsub hp
        · simp at h
          omega

theorem C2_parse_count_nonneg_amended_witness :
    '-' ∉ "55K".data ∧ (0 : Int) ≤ 55000 :=
  ⟨by decide, C2_parse_count_nonneg_amended "55K" 55000 (by decide) (by decide)⟩

/-- Counterexample to claim C2 as stated: `parse_count("-5")` returns the
negative integer `-5` (Python `int("-5")`), so the output is not always
non-negative. -/
theorem C2_parse_count_negative_cex :
    parse_count (some "-5") = .ok (-5) ∧ (-5 : Int) < 0 := ⟨by decide, by decide⟩

/-- A word character passes through pass (a) unchanged in either state. -/
theorem stepA_word_head {c : Char} (hw : isWordChar c = true) (b : Bool)
    (cs : List Char) : stepA b (c :: cs) = c :: stepA false cs := by
  cases b <;> simp [stepA, hw]

/-- A non-word character starts a space replacement when not already in a
run. -/
theorem stepA_nonword_false {c : Char} (hw : isWordChar c = false)
    (cs : List Char) : stepA false (c :: cs) = ' ' :: stepA true cs := by
  simp [stepA, hw]

/-- A non-word character is absorbed when already inside a run. -/
theorem stepA_nonword_true {c : Char} (hw : isWordChar c = false)
    (cs : List Char) : stepA true (c :: cs) = stepA true cs := by
  simp [stepA, hw]

/-- Pass (a) of the query normalizer is idempotent. -/
theorem stepA_idem : ∀ (l : List Char) (b : Bool),
    stepA false (stepA b l) = stepA b l ∧
    stepA true (stepA true l) = stepA true l := by
  intro l
  induction l with
  | nil => intro b; cases b <;> exact ⟨rfl, rfl⟩
  | cons c cs ih =>
    intro b
    by_cases hw : isWordChar c = true
    · constructor
      · rw [stepA_word_head hw b, stepA_word_head hw false, (ih false).1]
      · rw [stepA_word_head hw true, stepA_word_head hw true, (ih false).1]
    · have hw' : isWordChar c = false := by simpa using hw
      have hsp : isWordChar ' ' = false := by decide
      cases b
      · refine ⟨?_, ?_⟩
        · rw [stepA_nonword_false hw', stepA_nonword_false hsp, (ih true).2]
        · rw [stepA_nonword_true hw']
          exact (ih true).2
      · refine ⟨?_, ?_⟩
        · rw [stepA_nonword_true hw']
          exact (ih true).1
        · rw [stepA_nonword_true hw']
          exact (ih true).2

/-! ## Claims -/

/-- Claim C1 (amended): `parse_count` applies its rules in order —
null/empty input yields 0; one leading `<` is stripped; one trailing `+`
is stripped; a remaining `K` suffix parses the prefix as a float,
multiplies by 1,000 and truncates; an `M` suffix multiplies by 1,000,000;
otherwise the remainder is parsed as an integer — and a `ValueError` at
the numeric conversion (malformed literal, or NaN) yields 0.  However,
when the `K`/`M` prefix parses to an infinite float (e.g. `"infK"`), the
`int()` conversion raises an uncaught `OverflowError` instead of
returning 0, and that is the only way the function raises.  All seven
example values of the claim hold. -/
theorem C1_parse_count_amended :
    parse_count none = .ok 0 ∧
    parse_count (some "") = .ok 0 ∧
    parse_count (some "<100") = .ok 100 ∧
    parse_count (some "55K+") = .ok 55000 ∧
    parse_count (some "1.2M+") = .ok 1200000 ∧
    parse_count (some "320") = .ok 320 ∧
    parse_count (some "abcK") = .ok 0 ∧
    (∀ s, parse_count (some s) = .error () ↔ infPathB s = true) ∧
    (∀ s num den, s ≠ "" → (strippedCount s).getLast? = some 'K' →
      pyFloatCore (strippedCount s).dropLast = some (.finite num den) →
      parse_count (some s) = .ok (scaledTrunc (num * 1000) den)) ∧
    (∀ s num den, s ≠ "" → (strippedCount s).getLast? = some 'M' →
      pyFloatCore (strippedCount s).dropLast = some (.finite num den) →
      parse_count (some s) = .ok (scaledTrunc (num * 1000000) den)) ∧
    (∀ s n, s ≠ "" → (strippedCount s).getLast? ≠ some 'K' →
      (strippedCount s).getLast? ≠ some 'M' →
      pyIntCore (strippedCount s) = some n →
      parse_count (some s) = .ok n) := by
  refine ⟨by decide, by decide, by decide, by decide, by decide, by decide,
    by decide, ?_, ?_, ?_, ?_⟩
  · intro s
    unfold parse_count infPathB
    by_cases hs : s = ""
    · simp [hs]
    · simp only [hs, if_false]
      unfold parseCountBody
      by_cases hK : (strippedCount s).getLast? = some 'K'
      · simp [hK, kmBranch_error_iff, hs]
      · by_cases hM : (strippedCount s).getLast? = some 'M'
        · simp [hK, hM, kmBranch_error_iff, hs]
        · rcases hi : pyIntCore (strippedCount s) with _ | n <;>
            simp [hK, hM, hi, hs]
  · intro s num den hs hK hf
    unfold parse_count parseCountBody
    simp only [hs, if_false, hK, if_true]
    unfold kmBranch pyIntOfFloat
    simp [hf, kmScale]
  · intro s num den hs hM hf
    unfold parse_count parseCountBody
    by_cases hK : (strippedCount s).getLast? = some 'K'
    · rw [hK] at hM; simp at hM
    · simp only [hs, if_false, hK, hM, if_true]
      unfold kmBranch pyIntOfFloat
      simp [hf, hK, kmScale]
  · intro s n hs hK hM hi
    unfold parse_count parseCountBody
    simp [hs, hK, hM, hi]

theorem C1_parse_count_amended_witness :
    ("7K" : String) ≠ "" ∧ (strippedCount "7K").getLast? = some 'K' ∧
    parse_count (some "7K") = .ok (scaledTrunc (7 * 1000) 1) :=
  ⟨by decide, by decide,
    C1_parse_count_amended.2.2.2.2.2.2.2.2.1 "7K" 7 1 (by decide) (by decide) rfl⟩

/-- Counterexample to claim C1 as stated: the claim promises that "any
numeric-conversion failure yields 0 instead of raising", but on input
`"infK"` the code computes `int(float("inf") * 1000)`, whose
`OverflowError` is not caught by the `except ValueError` handler and
escapes `parse_count`. -/
theorem C1_parse_count_cex : parse_count (some "infK") = .error () := by decide

/-- A good date field yields a fully populated date triple. -/
theorem dateFromField_good {v : Json} (h : goodDateFieldB v = true) :
    ∃ y m d, dateFromField v = .ok (some y, some m, some d) := by
  cases v with
  | str s =>
    simp only [goodDateFieldB, Bool.and_eq_true] at h
    obtain ⟨ht, h2⟩ := h
    rcases hsp : splitDash s.data with _ | ⟨p0, rest0⟩
    · rw [hsp] at h2; simp at h2
    · rcases rest0 with _ | ⟨p1, rest1⟩
      · rw [hsp] at h2; simp at h2
      · rcases rest1 with _ | ⟨p2, rest2⟩
        · rw [hsp] at h2; simp at h2
        · rcases rest2 with _ | ⟨p3, t⟩
          · rcases hy : pyIntCore p0 with _ | y
            · rw [hsp] at h2; simp [hy] at h2
            · rcases hm2 : pyIntCore p1 with _ | m2
              · rw [hsp] at h2; simp [hy, hm2] at h2
              · rcases hd2 : pyIntCore p2 with _ | d2
                · rw [hsp] at h2; simp [hy, hm2, hd2] at h2
                · exact ⟨y, m2, d2, by simp [dateFromField, ht, hsp, hy, hm2, hd2]⟩
          · rw [hsp] at h2; simp at h2
  | null => simp [goodDateFieldB] at h
  | bool b => simp [goodDateFieldB] at h
  | int n => simp [goodDateFieldB] at h
  | arr es => simp [goodDateFieldB] at h
  | obj fs => simp [goodDateFieldB] at h

/-- A bad date field raises. -/
theorem dateFromField_bad {v : Json} (h : badDateFieldB v = true) :
    dateFromField v = .error () := by
  cases v with
  | str s =>
    simp only [badDateFieldB, Bool.and_eq_true] at h
    obtain ⟨ht, h2⟩ := h
    rcases hsp : splitDash s.data with _ | ⟨p0, rest0⟩
    · rw [hsp] at h2; simp at h2
    · rcases rest0 with _ | ⟨p1, rest1⟩
      · rw [hsp] at h2; simp at h2
      · rcases rest1 with _ | ⟨p2, rest2⟩
        · rw [hsp] at h2; simp at h2
        · rcases rest2 with _ | ⟨p3, t⟩
          · rcases hy : pyIntCore p0 with _ | y
            · simp [dateFromField, ht, hsp, hy]
            · rcases hm2 : pyIntCore p1 with _ | m2
              · simp [dateFromField, ht, hsp, hy, hm2]
              · rcases hd2 : pyIntCore p2 with _ | d2
                · simp [dateFromField, ht, hsp, hy, hm2, hd2]
                · rw [hsp] at h2
                  simp [hy, hm2, hd2] at h2
          · rw [hsp] at h2; simp at h2
  | null => simp [badDateFieldB, truthy] at h
  | bool b =>
    simp only [badDateFieldB, Bool.and_eq_true] at h
    simp [dateFromField, h.1]
  | int n =>
    simp only [badDateFieldB, Bool.and_eq_true] at h
    simp [dateFromField, h.1]
  | arr es =>
    simp only [badDateFieldB, Bool.and_eq_true] at h
    simp [dateFromField, h.1]
  | obj fs =>
    simp only [badDateFieldB, Bool.and_eq_true] at h
    simp [dateFromField, h.1]

/-- A date field that is neither good nor bad leaves all three components
null without raising. -/
theorem dateFromField_neutral {v : Json} (hg : goodDateFieldB v = false)
    (hb : badDateFieldB v = false) : dateFromField v = .ok (none, none, none) := by
  rcases ht : truthy v
  · simp [dateFromField, ht]
  · cases v with
    | str s =>
      simp only [goodDateFieldB, ht, Bool.true_and] at hg
      simp only [badDateFieldB, ht, Bool.true_and] at hb
      rcases hsp : splitDash s.data with _ | ⟨p0, rest0⟩
      · simp [dateFromField, ht, hsp]
      · rcases rest0 with _ | ⟨p1, rest1⟩
        · simp [dateFromField, ht, hsp]
        · rcases rest1 with _ | ⟨p2, rest2⟩
          · simp [dateFromField, ht, hsp]
          · rcases rest2 with _ | ⟨p3, t⟩
            · rcases hy : pyIntCore p0 with _ | y
              · rw [hsp] at hb; simp [hy] at hb
              · rcases hm2 : pyIntCore p1 with _ | m2
                · rw [hsp] at hb; simp [hy, hm2] at hb
                · rcases hd2 : pyIntCore p2 with _ | d2
                  · rw [hsp] at hb; simp [hy, hm2, hd2] at hb
                  · rw [hsp] at hg; simp [hy, hm2, hd2] at hg
            · simp [dateFromField, ht, hsp]
    | null => simp [truthy] at ht
    | bool b => simp only [badDateFieldB, ht] at hb; simp at hb
    | int n => simp only [badDateFieldB, ht] at hb; simp at hb
    | arr es => simp only [badDateFieldB, ht] at hb; simp at hb
    | obj fs => simp only [badDateFieldB, ht] at hb; simp at hb

/-- A successful `albumHead` pins down the date triple. -/
theorem albumHead_date {item : Json}
    {v : String × Json × Json × (Option Int × Option Int × Option Int) × Json}
    (h : albumHead item = .ok v) : dateTriple item = .ok v.2.2.2.1 := by
  unfold albumHead at h
  repeat' split at h
  all_goals simp_all
  subst h
  rfl

/-- A successful album mapping pins down the date triple. -/
theorem album_info_ok_date {net : Net} {now : Int} {item : Json}
    {info : AlbumInfo} (h : (get_album_infoT net now item).2 = .ok info) :
    dateTriple item = .ok (info.year, info.month, info.day) := by
  unfold get_album_infoT at h
  split at h
  · simp at h
  · rename_i album album_id seokey y m d url heq
    split at h
    · simp at h
    · simp at h
      subst h
      simpa using albumHead_date heq

/-- Claim C4 (amended): every successfully produced album record has its
year/month/day fields either all populated (exactly when the release date
is a truthy string of exactly three `-`-separated parts, each accepted by
`int()`) or all null; a missing/falsy date or one that does not split
into three parts is absorbed as a null fallback; but a truthy date that
is not a string, or a three-part date with a component `int()` rejects,
raises an uncaught exception and aborts the whole mapping instead of
being absorbed. -/
theorem C4_release_date_amended (net : Net) (now : Int) (item : Json) :
    (∀ info, (get_album_infoT net now item).2 = .ok info →
      (goodDateB item = true →
        ∃ y m d, info.year = some y ∧ info.month = some m ∧ info.day = some d) ∧
      (goodDateB item = false →
        info.year = none ∧ info.month = none ∧ info.day = none)) ∧
    (badDateB item = true → (get_album_infoT net now item).2 = .error ()) := by
  constructor
  · intro info h
    have hd := album_info_ok_date h
    unfold dateTriple at hd
    constructor
    · intro hgood
      unfold goodDateB at hgood
      rcases hg : pyGet item "release_date" with e | v
      · rw [hg] at hgood; simp at hgood
      · rw [hg] at hgood
        rw [hg] at hd
        simp only [Except.ok.injEq] at hd ⊢
        simp at hgood
        obtain ⟨y, m2, d2, hdf⟩ := dateFromField_good hgood
        rw [hdf] at hd
        simp at hd
        exact ⟨y, m2, d2, hd.1.symm, hd.2.1.symm, hd.2.2.symm⟩
    · intro hgood
      rcases hg : pyGet item "release_date" with e | v
      · rw [hg] at hd; simp at hd
      · unfold goodDateB at hgood
        rw [hg] at hgood
        rw [hg] at hd
        simp at hgood
        simp only [Except.ok.injEq] at hd
        rcases hbf : badDateFieldB v
        · have hn := dateFromField_neutral hgood hbf
          rw [hn] at hd
          simp at hd
          exact ⟨hd.1.symm, hd.2.1.symm, hd.2.2.symm⟩
        · have hb2 := dateFromField_bad hbf
          rw [hb2] at hd
          simp at hd
  · intro hbad
    unfold badDateB at hbad
    rcases hg : pyGet item "release_date" with e | v
    · rw [hg] at hbad; simp at hbad
    · rw [hg] at hbad
      simp at hbad
      have hdt : dateTriple item = .error () := by
        unfold dateTriple
        simp [hg, dateFromField_bad hbad]
      unfold get_album_infoT
      split
      · rfl
      · rename_i album album_id seokey y m d url heq
        have h2 := albumHead_date heq
        rw [hdt] at h2
        simp at h2

theorem C4_release_date_amended_witness :
    goodDateB (albumItem (.str "2001-09-11") []) = true ∧
    ∃ y m d, albumInfoEmpty.year = some y ∧ albumInfoEmpty.month = some m ∧
      albumInfoEmpty.day = some d :=
  ⟨by decide,
    ((C4_release_date_amended netFail 0 (albumItem (.str "2001-09-11") [])).1
      albumInfoEmpty (by rfl)).1 (by decide)⟩

/-- Counterexample to claim C4 as stated: a malformed three-part release
date (`"2001-09-1x"`, well-formed in every other field) is not absorbed
as a null fallback — `int("1x")` raises an uncaught `ValueError` and the
whole album mapping aborts with an exception. -/
theorem C4_release_date_cex :
    (get_album_infoT netFail 0 (albumItem (.str "2001-09-1x") [])).2 =
      .error () := by rfl

/-- A mapped track always carries the unassigned (beets-default) medium. -/
theorem _get_trackT_medium {now : Int} {d : Json} {t : TrackInfo}
    (h : _get_trackT now d = .ok t) : t.medium = none := by
  unfold _get_trackT at h
  repeat' split at h
  all_goals (try (exact Except.noConfusion h))
  simp only [Except.ok.injEq] at h
  rw [← h]

/-- Bumping the always-`none` medium key in the tally. -/
theorem bumpTotal_none (m : Nat) :
    bumpTotal (if m = 0 then [] else [(none, m)]) none = [(none, m + 1)] := by
  by_cases hm : m = 0 <;> simp [hm, bumpTotal]

/-- Invariant of the track loop: since every mapped track has medium
`none`, the tally has `none` as its only key, carrying the number of
tracks. -/
theorem albumTracksLoop_spec (now : Int) :
    ∀ (songs : List Json) (i m : Nat) (acc tracks : List TrackInfo)
      (totals : List (Option Int × Nat)),
      (∀ t ∈ acc, t.medium = none) →
      m = acc.length →
      albumTracksLoop now songs i (if m = 0 then [] else [(none, m)]) acc =
        .ok (tracks, totals) →
      (∀ t ∈ tracks, t.medium = none) ∧
      totals = (if tracks.length = 0 then [] else [(none, tracks.length)]) ∧
      tracks.length = acc.length + songs.length := by
  intro songs
  induction songs with
  | nil =>
    intro i m acc tracks totals hacc hm h
    unfold albumTracksLoop at h
    simp only [Except.ok.injEq, Prod.mk.injEq] at h
    obtain ⟨h1, h2⟩ := h
    subst h1
    refine ⟨hacc, ?_, by simp⟩
    rw [← h2, hm]
  | cons s rest ih =>
    intro i m acc tracks totals hacc hm h
    unfold albumTracksLoop at h
    split at h
    · simp at h
    · rename_i t0 heq
      have ht0 : t0.medium = none := _get_trackT_medium heq
      have ht0' : ({ t0 with index := some (i : Int) } : TrackInfo).medium = none :=
        ht0
      have hbump : bumpTotal (if m = 0 then [] else [(none, m)])
          ({ t0 with index := some (i : Int) } : TrackInfo).medium =
          if m + 1 = 0 then [] else [(none, m + 1)] := by
        rw [ht0', bumpTotal_none m]
        simp
      rw [hbump] at h
      have hacc2 : ∀ t ∈ acc ++ [{ t0 with index := some (i : Int) }],
          t.medium = none := by
        intro t ht
        rcases List.mem_append.mp ht with h1 | h1
        · exact hacc t h1
        · rw [List.mem_singleton.mp h1]
          exact ht0
      have hm2 : m + 1 = (acc ++ [{ t0 with index := some (i : Int) }]).length := by
        simp [hm]
      obtain ⟨ha, hb, hc⟩ := ih (i + 1) (m + 1) _ tracks totals hacc2 hm2 h
      refine ⟨ha, hb, ?_⟩
      simp [List.length_append] at hc ⊢
      omega

/-- The tally with the single `none` key reads back its count. -/
theorem lookupTotal_none (L : Nat) :
    lookupTotal [((none : Option Int), L)] none = (L : Int) := by
  simp [lookupTotal]

/-- Medium accounting of a successful `albumTail`: every backfilled track
carries `medium_total = number of tracks`, and the `mediums` value is
`some 0` for an empty track list and `none` (Python `None`) otherwise. -/
theorem albumTail_tracks {now : Int} {item : Json} {label : Option Json}
    {artists aseo aids : Json} {tracks : List TrackInfo}
    {mediums : Option Int} {pc fc : Int}
    (h : albumTail now item =
      .ok (label, artists, aseo, aids, tracks, mediums, pc, fc)) :
    (∀ t ∈ tracks, t.medium_total = some (tracks.length : Int)) ∧
    (tracks = [] → mediums = some 0) ∧
    (tracks ≠ [] → mediums = none) := by
  unfold albumTail at h
  rcases hLb : albumLabel item with e | label0
  · simp [hLb] at h
  · simp only [hLb] at h
    rcases hB1 : pySub item "artists" with e | artists0
    · simp [hB1] at h
    · simp only [hB1] at h
      rcases hB2 : pySub item "artist_seokeys" with e | aseo0
      · simp [hB2] at h
      · simp only [hB2] at h
        rcases hB3 : pySub item "artist_ids" with e | aids0
        · simp [hB3] at h
        · simp only [hB3] at h
          rcases hB4 : pySub item "tracks" with e | songsJ
          · simp [hB4] at h
          · simp only [hB4] at h
            rcases hB5 : pySub item "play_count" with e | pc0
            · simp [hB5] at h
            · simp only [hB5] at h
              rcases hB6 : parse_countJ pc0 with e | pcv
              · simp [hB6] at h
              · simp only [hB6] at h
                rcases hB7 : pySub item "favorite_count" with e | fc0
                · simp [hB7] at h
                · simp only [hB7] at h
                  rcases hB8 : parse_countJ fc0 with e | fcv
                  · simp [hB8] at h
                  · simp only [hB8] at h
                    rcases hB9 : pyIterate songsJ with e | songs
                    · simp [hB9] at h
                    · simp only [hB9] at h
                      rcases hLoop : albumTracksLoop now songs 1 [] [] with e | pair
                      · simp [hLoop] at h
                      · simp only [hLoop] at h
                        rcases pair with ⟨tracks0, totals0⟩
                        obtain ⟨hmeds, htotals, hlen⟩ :=
                          albumTracksLoop_spec now songs 1 0 [] tracks0 totals0
                            (by simp) rfl hLoop
                        rcases hempty : songs.isEmpty
                        · -- non-empty track list
                          simp only [hempty, Bool.false_eq_true, if_false] at h
                          rcases hMax : pyMaxKeys (totals0.map Prod.fst) with e | med0
                          · simp [hMax] at h
                          · simp only [hMax] at h
                            simp only [Except.ok.injEq, Prod.mk.injEq] at h
                            obtain ⟨e1, e2, e3, e4, e5, e6, e7, e8⟩ := h
                            have hsne : songs ≠ [] := by
                              intro hc
                              rw [hc] at hempty
                              simp at hempty
                            have htne : tracks0.length ≠ 0 := by
                              rw [hlen]
                              simpa using fun hc => hsne (List.length_eq_zero.mp hc)
                            rw [if_neg htne] at htotals
                            rw [htotals] at hMax
                            simp [pyMaxKeys] at hMax
                            refine ⟨?_, ?_, ?_⟩
                            · intro t' ht'
                              rw [← e5] at ht'
                              rw [List.mem_map] at ht'
                              obtain ⟨t, htm, rfl⟩ := ht'
                              have hmednone := hmeds t htm
                              rw [← e5, List.length_map]
                              simp [htotals, hmednone, lookupTotal]
                            · intro hc
                              rw [← e5] at hc
                              simp at hc
                              exact absurd (show tracks0.length = 0 by simp [hc]) htne
                            · intro _
                              rw [← e6, ← hMax]
                          -- (error branch of pyMaxKeys handled above)
                        · -- empty track list
                          simp only [hempty, if_true] at h
                          simp only [Except.ok.injEq, Prod.mk.injEq] at h
                          obtain ⟨e1, e2, e3, e4, e5, e6, e7, e8⟩ := h
                          have hs0 : tracks0 = [] := by
                            rw [List.isEmpty_iff] at hempty
                            rw [hempty] at hlen
                            exact List.length_eq_zero.mp (by simpa using hlen)
                          have htr : tracks = [] := by
                            rw [← e5, hs0]
                            simp
                          refine ⟨?_, fun _ => e6.symm, fun hne => absurd htr hne⟩
                          rw [htr]
                          simp

/-- Claim C5 (amended): in every successfully mapped album, each track's
medium-total equals the total number of tracks — all tracks share the
unassigned (`None`) medium, because `_get_track` never reads a medium
from the song data — and the album's medium count is 0 for an empty track
list but the null medium value (`None`, not the reported medium index)
for a non-empty one, since `max(medium_totals.keys())` is `max([None])`. -/
theorem C5_medium_accounting_amended (net : Net) (now : Int) (item : Json)
    (info : AlbumInfo) (h : (get_album_infoT net now item).2 = .ok info) :
    (∀ t ∈ info.tracks, t.medium_total = some (info.tracks.length : Int)) ∧
    (info.tracks = [] → info.mediums = some 0) ∧
    (info.tracks ≠ [] → info.mediums = none) := by
  unfold get_album_infoT at h
  split at h
  · simp at h
  · rename_i album album_id seokey y m d url heq
    split at h
    · simp at h
    · rename_i label artists aseo aids tracksW mediumsW pcW fcW heq2
      simp at h
      subst h
      simpa using albumTail_tracks heq2

theorem C5_medium_accounting_amended_witness :
    albumInfoTwo.tracks ≠ [] ∧ albumInfoTwo.mediums = none :=
  ⟨by simp [albumInfoTwo],
    (C5_medium_accounting_amended netFail 0
      (albumItem (.str "2001-09-11") [songJ "T1" 1, songJ "T2" 2])
      albumInfoTwo (by rfl)).2.2 (by simp [albumInfoTwo])⟩

/-- Counterexample to claim C5 as stated: an album whose two song objects
both report `"medium": 1` is mapped successfully with N = 2 tracks, yet
the album's medium count is the null value (Python `None`), not 1 — the
track mapper never reads the song's medium field, so the only tally key
is `None` and `max(medium_totals.keys())` returns `None`. -/
theorem C5_medium_count_cex :
    albumResultMediums
        (get_album_infoT netFail 0
          (albumItem (.str "2001-09-11") [songJ "T1" 1, songJ "T2" 2])) =
      some none ∧
    some (none : Option Int) ≠ some (some (1 : Int)) :=
  ⟨by rfl, by decide⟩

/-- Claim C9 (amended): in each playlist entry the title and album fields
are HTML-entity-unescaped (`&quot;` → `"`) and whitespace-trimmed, but
the artist field is only trimmed — it is copied verbatim without
unescaping; likewise `_get_track` copies the artist field verbatim into
the track record. -/
theorem C9_unescape_amended :
    (∀ (j : Json) (t a b : String),
      pySub j "title" = .ok (.str t) →
      pySub j "artists" = .ok (.str a) →
      pySub j "album" = .ok (.str b) →
      songTriple j = .ok { title := trimS (replaceQuot t),
                           artist := trimS a,
                           album := trimS (replaceQuot b) }) ∧
    (∀ (now : Int) (j : Json) (tr : TrackInfo),
      _get_trackT now j = .ok tr → pySub j "artists" = .ok tr.artist) := by
  constructor
  · intro j t a b h1 h2 h3
    simp [songTriple, h1, h2, h3]
  · intro now j tr h
    unfold _get_trackT at h
    repeat' split at h
    all_goals (try (exact Except.noConfusion h))
    simp only [Except.ok.injEq] at h
    rw [← h]
    assumption

theorem C9_unescape_amended_witness :
    songTriple (.obj [("title", .str "a &quot;b"), ("artists", .str " c &quot;d "),
      ("album", .str "e")]) =
      .ok { title := trimS (replaceQuot "a &quot;b"), artist := trimS " c &quot;d ",
            album := trimS (replaceQuot "e") } :=
  C9_unescape_amended.1 _ "a &quot;b" " c &quot;d " "e" (by rfl) (by rfl) (by rfl)

/-- Counterexample to claim C9 as stated: a playlist entry whose artist
field contains `&quot;` is exposed with the entity still present — the
artist field is trimmed but never unescaped (`import_gaana_playlist` only
calls `.replace("&quot;", ...)` on the title and album). -/
theorem C9_artist_not_unescaped_cex :
    (import_gaana_playlistT netPl "" "http://gaana.com/playlist/p1").2 =
      .ok [{ title := "T", artist := "x &quot;y", album := "B" }] ∧
    hasSubstr "&quot;".data "x &quot;y".data = true :=
  ⟨by rfl, by decide⟩

theorem tracePolicy_nil : tracePolicy [] := by
  intro r hr
  simp at hr

theorem tracePolicy_cons {r : HttpReq} {l : List HttpReq}
    (h1 : r.timeout = if r.site = ReqSite.imageProbe then none else some 30)
    (h2 : tracePolicy l) : tracePolicy (r :: l) := by
  intro x hx
  rcases List.mem_cons.mp hx with h | h
  · rw [h]; exact h1
  · exact h2 x h

theorem tracePolicy_append {l1 l2 : List HttpReq}
    (h1 : tracePolicy l1) (h2 : tracePolicy l2) : tracePolicy (l1 ++ l2) := by
  intro x hx
  rcases List.mem_append.mp hx with h | h
  · exact h1 x h
  · exact h2 x h

/-- The cover-art probe is the plugin's one request without a timeout. -/
theorem tracePolicy_image (net : Net) (url : Json) :
    tracePolicy (is_valid_image_urlT net url).1 := by
  cases url with
  | str u =>
    intro r hr
    simp [is_valid_image_urlT] at hr
    rw [hr]
    simp
  | null => exact tracePolicy_nil
  | bool b => exact tracePolicy_nil
  | int n => exact tracePolicy_nil
  | arr es => exact tracePolicy_nil
  | obj fs => exact tracePolicy_nil

theorem tracePolicy_album_info (net : Net) (now : Int) (item : Json) :
    tracePolicy (get_album_infoT net now item).1 := by
  unfold get_album_infoT
  split
  · exact tracePolicy_nil
  · rename_i album album_id seokey y m d url heq
    exact tracePolicy_image net url

theorem tracePolicy_albumsLoop (net : Net) (base : String) (now : Int) :
    ∀ items, tracePolicy (albumsLoop net base now items).1 := by
  intro items
  induction items with
  | nil => exact tracePolicy_nil
  | cons a rest ih =>
    unfold albumsLoop
    rcases h1 : pySub a "seokey" with e | sk
    · simp only [h1]
      exact tracePolicy_nil
    · simp only [h1]
      rcases h2 : net (base ++ ALBUM_DETAILS ++ pyStrJ sk) with e | resp
      · simp only [h2]
        exact tracePolicy_cons (by simp [albumDetailReq]) tracePolicy_nil
      · simp only [h2]
        rcases h3 : resp.json with e | dj
        · simp only [h3]
          exact tracePolicy_cons (by simp [albumDetailReq]) tracePolicy_nil
        · simp only [h3]
          rcases h4 : pyIndex0 dj with e | a0
          · simp only [h4]
            exact tracePolicy_cons (by simp [albumDetailReq]) tracePolicy_nil
          · simp only [h4]
            rcases h5 : get_album_infoT net now a0 with ⟨tr, res5⟩
            have htr := tracePolicy_album_info net now a0
            rw [h5] at htr
            rcases res5 with e | info
            · simp only [h5]
              exact tracePolicy_cons (by simp [albumDetailReq]) htr
            · simp only [h5]
              rcases h6 : pySub a "title" with e | ttl
              · simp only [h6]
                exact tracePolicy_cons (by simp [albumDetailReq]) htr
              · simp only [h6]
                rcases h7 : albumsLoop net base now rest with ⟨tr2, res7⟩
                have h8 := ih
                rw [h7] at h8
                rcases res7 with e | infos
                · simp only [h7]
                  exact tracePolicy_cons (by simp [albumDetailReq])
                    (tracePolicy_append htr h8)
                · simp only [h7]
                  exact tracePolicy_cons (by simp [albumDetailReq])
                    (tracePolicy_append htr h8)

theorem tracePolicy_get_albums (net : Net) (base : String) (now : Int)
    (q : String) : tracePolicy (get_albumsT net base now q).1 := by
  unfold get_albumsT
  rcases h1 : net (albumSearchUrl base q) with e | r
  · simp only [h1]
    exact tracePolicy_cons (by simp [albumSearchReq]) tracePolicy_nil
  · simp only [h1]
    rcases hs : r.ok_status
    · simp only [hs, Bool.false_eq_true, if_false]
      exact tracePolicy_cons (by simp [albumSearchReq]) tracePolicy_nil
    · simp only [hs, if_true]
      rcases h2 : r.json with e | data
      · simp only [h2]
        exact tracePolicy_cons (by simp [albumSearchReq]) tracePolicy_nil
      · simp only [h2]
        rcases h3 : pyIterate data with e | items
        · simp only [h3]
          exact tracePolicy_cons (by simp [albumSearchReq]) tracePolicy_nil
        · simp only [h3]
          rcases h4 : albumsLoop net base now items with ⟨tr, res⟩
          have h5 := tracePolicy_albumsLoop net base now items
          rw [h4] at h5
          simp only [h4]
          exact tracePolicy_cons (by simp [albumSearchReq]) h5

theorem tracePolicy_songsLoop (net : Net) (base : String) (now : Int) :
    ∀ items, tracePolicy (songsLoop net base now items).1 := by
  intro items
  induction items with
  | nil => exact tracePolicy_nil
  | cons a rest ih =>
    unfold songsLoop
    rcases h1 : pySub a "seokey" with e | sk
    · simp only [h1]
      exact tracePolicy_nil
    · simp only [h1]
      rcases h2 : net (base ++ SONG_DETAILS ++ pyStrJ sk) with e | resp
      · simp only [h2]
        exact tracePolicy_cons (by simp [songDetailReq]) tracePolicy_nil
      · simp only [h2]
        rcases h3 : resp.json with e | dj
        · simp only [h3]
          exact tracePolicy_cons (by simp [songDetailReq]) tracePolicy_nil
        · simp only [h3]
          rcases h4 : pyIndex0 dj with e | s0
          · simp only [h4]
            exact tracePolicy_cons (by simp [songDetailReq]) tracePolicy_nil
          · simp only [h4]
            rcases h5 : _get_trackT now s0 with e | info
            · simp only [h5]
              exact tracePolicy_cons (by simp [songDetailReq]) tracePolicy_nil
            · simp only [h5]
              rcases h6 : pySub a "title" with e | ttl
              · simp only [h6]
                exact tracePolicy_cons (by simp [songDetailReq]) tracePolicy_nil
              · simp only [h6]
                rcases h7 : songsLoop net base now rest with ⟨tr2, res7⟩
                have h8 := ih
                rw [h7] at h8
                rcases res7 with e | infos
                · simp only [h7]
                  exact tracePolicy_cons (by simp [songDetailReq]) h8
                · simp only [h7]
                  exact tracePolicy_cons (by simp [songDetailReq]) h8

theorem tracePolicy_get_tracks (net : Net) (base : String) (now : Int)
    (q : String) : tracePolicy (get_tracksT net base now q).1 := by
  unfold get_tracksT
  rcases h1 : net (songSearchUrl base q) with e | r
  · simp only [h1]
    exact tracePolicy_cons (by simp [songSearchReq]) tracePolicy_nil
  · simp only [h1]
    rcases hs : r.ok_status
    · simp only [hs, Bool.false_eq_true, if_false]
      exact tracePolicy_cons (by simp [songSearchReq]) tracePolicy_nil
    · simp only [hs, if_true]
      rcases h2 : r.json with e | data
      · simp only [h2]
        exact tracePolicy_cons (by simp [songSearchReq]) tracePolicy_nil
      · simp only [h2]
        rcases h3 : pyIterate data with e | items
        · simp only [h3]
          exact tracePolicy_cons (by simp [songSearchReq]) tracePolicy_nil
        · simp only [h3]
          rcases h4 : songsLoop net base now items with ⟨tr, res⟩
          have h5 := tracePolicy_songsLoop net base now items
          rw [h4] at h5
          simp only [h4]
          exact tracePolicy_cons (by simp [songSearchReq]) h5

theorem tracePolicy_album_for_id (net : Net) (base : String) (now : Int)
    (ident : String) : tracePolicy (album_for_idT net base now ident).1 := by
  unfold album_for_idT
  rcases hm : hasSubstr "gaana.com/album/".data ident.data
  · simp only [hm, Bool.false_eq_true, if_false]
    exact tracePolicy_nil
  · simp only [hm, if_true]
    rcases h1 : net (base ++ ALBUM_DETAILS ++ lastSlashSeg ident) with e | r
    · simp only [h1]
      exact tracePolicy_cons (by simp [albumIdReq]) tracePolicy_nil
    · simp only [h1]
      rcases hs : r.ok_status
      · simp only [hs, Bool.false_eq_true, if_false]
        exact tracePolicy_cons (by simp [albumIdReq]) tracePolicy_nil
      · simp only [hs, if_true]
        rcases h2 : r.json with e | dj
        · simp only [h2]
          exact tracePolicy_cons (by simp [albumIdReq]) tracePolicy_nil
        · simp only [h2]
          rcases h3 : pyIndex0 dj with e | a0
          · simp only [h3]
            exact tracePolicy_cons (by simp [albumIdReq]) tracePolicy_nil
          · simp only [h3]
            rcases h4 : get_album_infoT net now a0 with ⟨tr, res4⟩
            have htr := tracePolicy_album_info net now a0
            rw [h4] at htr
            rcases res4 with e | info
            · simp only [h4]
              exact tracePolicy_cons (by simp [albumIdReq]) htr
            · simp only [h4]
              exact tracePolicy_cons (by simp [albumIdReq]) htr

theorem tracePolicy_track_for_id (net : Net) (base : String) (now : Int)
    (ident : String) : tracePolicy (track_for_idT net base now ident).1 := by
  unfold track_for_idT
  rcases hm : hasSubstr "gaana.com/song/".data ident.data
  · simp only [hm, Bool.false_eq_true, if_false]
    exact tracePolicy_nil
  · simp only [hm, if_true]
    rcases h1 : net (base ++ SONG_DETAILS ++ lastSlashSeg ident) with e | r
    · simp only [h1]
      exact tracePolicy_cons (by simp [songIdReq]) tracePolicy_nil
    · simp only [h1]
      rcases hs : r.ok_status
      · simp only [hs, Bool.false_eq_true, if_false]
        exact tracePolicy_cons (by simp [songIdReq]) tracePolicy_nil
      · simp only [hs, if_true]
        rcases h2 : r.json with e | dj
        · simp only [h2]
          exact tracePolicy_cons (by simp [songIdReq]) tracePolicy_nil
        · simp only [h2]
          rcases h3 : pyIndex0 dj with e | s0
          · simp only [h3]
            exact tracePolicy_cons (by simp [songIdReq]) tracePolicy_nil
          · simp only [h3]
            rcases h4 : _get_trackT now s0 with e | t
            · simp only [h4]
              exact tracePolicy_cons (by simp [songIdReq]) tracePolicy_nil
            · simp only [h4]
              exact tracePolicy_cons (by simp [songIdReq]) tracePolicy_nil

theorem tracePolicy_import (net : Net) (base : String) (url : String) :
    tracePolicy (import_gaana_playlistT net base url).1 := by
  unfold import_gaana_playlistT
  rcases hm : hasSubstr "/playlist/".data url.data
  · simp only [hm, Bool.false_eq_true, if_false]
    exact tracePolicy_nil
  · simp only [hm, if_true]
    rcases h1 : net (base ++ PLAYLIST_DETAILS ++ lastSlashSeg url) with e | r
    · simp only [h1]
      exact tracePolicy_cons (by simp [playlistReq]) tracePolicy_nil
    · simp only [h1]
      rcases hs : r.ok_status
      · simp only [hs, Bool.false_eq_true, if_false]
        exact tracePolicy_cons (by simp [playlistReq]) tracePolicy_nil
      · simp only [hs, if_true]
        rcases h2 : r.json with e | songsJ
        · simp only [h2]
          exact tracePolicy_cons (by simp [playlistReq]) tracePolicy_nil
        · simp only [h2]
          rcases h3 : pyIterate songsJ with e | songs
          · simp only [h3]
            exact tracePolicy_cons (by simp [playlistReq]) tracePolicy_nil
          · simp only [h3]
            exact tracePolicy_cons (by simp [playlistReq]) tracePolicy_nil

/-- Claim C8 (amended): every outbound request issued by the plugin's
operations — searches, per-result detail fetches, identifier lookups, the
playlist fetch — carries `timeout=30`, with one exception: the image
validation in `is_valid_image_url` issues its request with **no** timeout
bound at all (`requests.get(url)` on line 294 has no `timeout=`
argument). -/
theorem C8_timeout_amended (net : Net) (base : String) (now : Int)
    (q ident purl : String) (j : Json) (artist albumq title : String)
    (va : Bool) :
    tracePolicy (get_albumsT net base now q).1 ∧
    tracePolicy (get_tracksT net base now q).1 ∧
    tracePolicy (album_for_idT net base now ident).1 ∧
    tracePolicy (track_for_idT net base now ident).1 ∧
    tracePolicy (import_gaana_playlistT net base purl).1 ∧
    tracePolicy (is_valid_image_urlT net j).1 ∧
    tracePolicy (candidatesT net base now artist albumq va).1 ∧
    tracePolicy (item_candidatesT net base now artist title).1 := by
  refine ⟨tracePolicy_get_albums net base now q,
    tracePolicy_get_tracks net base now q,
    tracePolicy_album_for_id net base now ident,
    tracePolicy_track_for_id net base now ident,
    tracePolicy_import net base purl,
    tracePolicy_image net j, ?_, ?_⟩
  · unfold candidatesT
    split
    · rename_i tr l hg
      have h2 := tracePolicy_get_albums net base now (candQuery va albumq artist)
      rw [hg] at h2
      exact h2
    · rename_i tr e hg
      have h2 := tracePolicy_get_albums net base now (candQuery va albumq artist)
      rw [hg] at h2
      exact h2
  · unfold item_candidatesT
    split
    · rename_i tr l hg
      have h2 := tracePolicy_get_tracks net base now (title ++ " " ++ artist)
      rw [hg] at h2
      exact h2
    · rename_i tr e hg
      have h2 := tracePolicy_get_tracks net base now (title ++ " " ++ artist)
      rw [hg] at h2
      exact h2

theorem C8_timeout_amended_witness :
    (songSearchReq "b" "q").timeout =
      (if (songSearchReq "b" "q").site = ReqSite.imageProbe
        then none else some 30) :=
  (C8_timeout_amended netFail "b" 0 "q" "i" "p" (.str "u") "a" "al" "t" true).2.1
    (songSearchReq "b" "q") (by simp [get_tracksT, netFail])

/-- Counterexample to claim C8 as stated: the image-validation operation
issues its request with no timeout argument at all, so not every outbound
request carries the 30-unit bound. -/
theorem C8_no_timeout_cex :
    (is_valid_image_urlT netFail (.str "http://c")).1 =
      [{ url := "http://c", site := ReqSite.imageProbe, timeout := none }] ∧
    ({ url := "http://c", site := ReqSite.imageProbe,
       timeout := none } : HttpReq).timeout ≠ some 30 :=
  ⟨by rfl, by decide⟩

/-- Claim C6 (amended): the query normalizer is idempotent on every query
on which the medium-marker removal pass removes nothing; in general it is
not idempotent, because removing a `CD<digits>`/`disc <digits>` marker can
leave two adjacent spaces (which a second pass would collapse) or expose a
new marker occurrence. -/
theorem C6_normalizer_conditional_idem (s : String)
    (h : stepB 0 false (stepA false s.data) = stepA false s.data) :
    normalizeQuery (normalizeQuery s) = normalizeQuery s := by
  unfold normalizeQuery
  show String.mk (stepB 0 false (stepA false (stepB 0 false (stepA false s.data)))) =
    String.mk (stepB 0 false (stepA false s.data))
  rw [h, (stepA_idem s.data false).1, h]

theorem C6_normalizer_conditional_idem_witness :
    stepB 0 false (stepA false "abbey road".data) = stepA false "abbey road".data ∧
    normalizeQuery (normalizeQuery "abbey road") = normalizeQuery "abbey road" :=
  ⟨by decide, C6_normalizer_conditional_idem "abbey road" (by decide)⟩

/-- Counterexample to claim C6 as stated: normalizing the already-obtained
normalization of `"a cd1 b"` changes it again — the first pass yields
`"a  b"` (marker removal leaves two adjacent spaces), and normalizing that
collapses them to `"a b"`. -/
theorem C6_normalizer_not_idem_cex :
    normalizeQuery (normalizeQuery "a cd1 b") ≠ normalizeQuery "a cd1 b" ∧
    normalizeQuery "a cd1 b" = "a  b" ∧ normalizeQuery "a  b" = "a b" :=
  ⟨by decide, by decide, by decide⟩

/-- Claim C7: for every identifier string that does not contain the
required marker substring (`gaana.com/album/` for `album_for_id`,
`gaana.com/song/` for `track_for_id`), the resolver returns null
immediately and issues zero network calls (empty request trace). -/
theorem C7_no_marker_no_request (net : Net) (base : String) (now : Int)
    (ident : String) :
    (hasSubstr "gaana.com/album/".data ident.data = false →
      album_for_idT net base now ident = ([], .ok none)) ∧
    (hasSubstr "gaana.com/song/".data ident.data = false →
      track_for_idT net base now ident = ([], .ok none)) := by
  constructor
  · intro h
    unfold album_for_idT
    simp [h]
  · intro h
    unfold track_for_idT
    simp [h]

theorem C7_no_marker_no_request_witness :
    hasSubstr "gaana.com/album/".data "xyz".data = false ∧
    album_for_idT netFail "b" 0 "xyz" = ([], .ok none) ∧
    track_for_idT netFail "b" 0 "xyz" = ([], .ok none) :=
  ⟨rfl, (C7_no_marker_no_request netFail "b" 0 "xyz").1 rfl,
    (C7_no_marker_no_request netFail "b" 0 "xyz").2 rfl⟩

/-- Claim C3: a transport/HTTP or JSON-decode failure on the initial
search request is caught and converted into an empty list by
`get_albums` / `get_tracks`, and such a failure on a lookup-by-identifier
request is converted into null by `album_for_id` / `track_for_id`; these
failures never escape to the caller. -/
theorem C3_guarded_requests (net : Net) (base : String) (now : Int)
    (q ident : String) :
    (requestFailsB net (albumSearchUrl base q) = true →
      (get_albumsT net base now q).2 = .ok []) ∧
    (requestFailsB net (songSearchUrl base q) = true →
      (get_tracksT net base now q).2 = .ok []) ∧
    (requestFailsB net (base ++ ALBUM_DETAILS ++ lastSlashSeg ident) = true →
      (album_for_idT net base now ident).2 = .ok none) ∧
    (requestFailsB net (base ++ SONG_DETAILS ++ lastSlashSeg ident) = true →
      (track_for_idT net base now ident).2 = .ok none) := by
  refine ⟨?_, ?_, ?_, ?_⟩
  · intro h
    unfold requestFailsB at h
    unfold get_albumsT
    rcases hn : net (albumSearchUrl base q) with e | r
    · simp [hn]
    · simp only [hn] at h
      rcases hs : r.ok_status
      · simp [hn, hs]
      · simp [hs] at h
        rcases hj : r.json with e | v
        · simp [hn, hs, hj]
        · simp [hj] at h
  · intro h
    unfold requestFailsB at h
    unfold get_tracksT
    rcases hn : net (songSearchUrl base q) with e | r
    · simp [hn]
    · simp only [hn] at h
      rcases hs : r.ok_status
      · simp [hn, hs]
      · simp [hs] at h
        rcases hj : r.json with e | v
        · simp [hn, hs, hj]
        · simp [hj] at h
  · intro h
    unfold requestFailsB at h
    unfold album_for_idT
    rcases hm : hasSubstr "gaana.com/album/".data ident.data
    · simp [hm]
    · rcases hn : net (base ++ ALBUM_DETAILS ++ lastSlashSeg ident) with e | r
      · simp [hm, hn]
      · simp only [hn] at h
        rcases hs : r.ok_status
        · simp [hm, hn, hs]
        · simp [hs] at h
          rcases hj : r.json with e | v
          · simp [hm, hn, hs, hj]
          · simp [hj] at h
  · intro h
    unfold requestFailsB at h
    unfold track_for_idT
    rcases hm : hasSubstr "gaana.com/song/".data ident.data
    · simp [hm]
    · rcases hn : net (base ++ SONG_DETAILS ++ lastSlashSeg ident) with e | r
      · simp [hm, hn]
      · simp only [hn] at h
        rcases hs : r.ok_status
        · simp [hm, hn, hs]
        · simp [hs] at h
          rcases hj : r.json with e | v
          · simp [hm, hn, hs, hj]
          · simp [hj] at h

theorem C3_guarded_requests_witness :
    requestFailsB netFail (albumSearchUrl "b" "q") = true ∧
    (get_albumsT netFail "b" 0 "q").2 = .ok [] ∧
    (get_tracksT netFail "b" 0 "q").2 = .ok [] ∧
    (album_for_idT netFail "b" 0 "i").2 = .ok none ∧
    (track_for_idT netFail "b" 0 "i").2 = .ok none :=
  ⟨rfl, (C3_guarded_requests netFail "b" 0 "q" "i").1 rfl,
    (C3_guarded_requests netFail "b" 0 "q" "i").2.1 rfl,
    (C3_guarded_requests netFail "b" 0 "q" "i").2.2.1 rfl,
    (C3_guarded_requests netFail "b" 0 "q" "i").2.2.2 rfl⟩

/-- Claim C10: the host-facing entry points `candidates` and
`item_candidates` never propagate a failure: whatever escapes the
underlying search operation (including an unguarded per-result
detail-fetch or mapping failure) is caught and converted into an empty
list, and a successful search result is passed through unchanged. -/
theorem C10_entry_points_catch (net : Net) (base : String) (now : Int)
    (artist albumq title : String) (va : Bool) :
    ((get_albumsT net base now (candQuery va albumq artist)).2 = .error () →
      (candidatesT net base now artist albumq va).2 = []) ∧
    (∀ l, (get_albumsT net base now (candQuery va albumq artist)).2 = .ok l →
      (candidatesT net base now artist albumq va).2 = l) ∧
    ((get_tracksT net base now (title ++ " " ++ artist)).2 = .error () →
      (item_candidatesT net base now artist title).2 = []) ∧
    (∀ l, (get_tracksT net base now (title ++ " " ++ artist)).2 = .ok l →
      (item_candidatesT net base now artist title).2 = l) := by
  refine ⟨?_, ?_, ?_, ?_⟩
  · intro h
    unfold candidatesT
    rcases hg : get_albumsT net base now (candQuery va albumq artist) with ⟨tr, res⟩
    rw [hg] at h
    cases res with
    | error e => simp
    | ok l => simp at h
  · intro l h
    unfold candidatesT
    rcases hg : get_albumsT net base now (candQuery va albumq artist) with ⟨tr, res⟩
    rw [hg] at h
    cases res with
    | error e => simp at h
    | ok l2 =>
      simp at h
      simp [h]
  · intro h
    unfold item_candidatesT
    rcases hg : get_tracksT net base now (title ++ " " ++ artist) with ⟨tr, res⟩
    rw [hg] at h
    cases res with
    | error e => simp
    | ok l => simp at h
  · intro l h
    unfold item_candidatesT
    rcases hg : get_tracksT net base now (title ++ " " ++ artist) with ⟨tr, res⟩
    rw [hg] at h
    cases res with
    | error e => simp at h
    | ok l2 =>
      simp at h
      simp [h]

theorem C10_entry_points_catch_witness :
    (get_albumsT netW "b" 0 (candQuery true "albumX" "ar")).2 = .error () ∧
    (candidatesT netW "b" 0 "ar" "albumX" true).2 = [] ∧
    (item_candidatesT netFail "b" 0 "ar" "ti").2 = [] :=
  ⟨rfl, (C10_entry_points_catch netW "b" 0 "ar" "albumX" "ti" true).1 rfl,
    (C10_entry_points_catch netFail "b" 0 "ar" "albumX" "ti" true).2.2.2 [] rfl⟩

end Gaana
